import Mathlib

/-!
Verification of the exiftools EXIF decode pipeline (package exif and the
vendor maker-note decoders in package mknote) against its specification.

The Go sources are shallowly embedded: pure functions become Lean functions,
machine integers become Nat/Int, byte buffers become `List Nat` (each entry a
byte value), Go maps become association lists with overwrite-on-insert, and
fallible Go calls become `Except`.  The low-level TIFF codec
(github.com/rpajarola/exiftools/tiff) and the field-name registry
(github.com/rpajarola/exiftools/models) are declared external collaborators by
the specification and are not present in the sources; they are modelled from
the spec as oracles (fields of `DecodeEnv`, typed-extraction fields of `Tag`)
and as small registry subsets.
-/

namespace Exiftools

/-- Semantic field name (models.FieldName, a string type). -/
abbrev FieldName := String

/-- TIFF data types (tiff.DataType); the embedding only distinguishes the
constructors the embedded code branches on. -/
inductive DataType
  | dtByte
  | dtAscii
  | dtShort
  | dtLong
  | dtRational
  | dtSByte
  | dtUndefined
  | dtSShort
  | dtSLong
  | dtSRational
  | dtFloat
  | dtDouble
  deriving DecidableEq, Repr

/-- TIFF byte order (binary.ByteOrder as used by the decoder). -/
inductive ByteOrder
  | littleEndian
  | bigEndian
  deriving DecidableEq, Repr

/-- tiff.Tag.  `id`, `tagType` (Go field `Type`), `count`, `val` (raw value
bytes) and `valOffset` come from the directory entry.  The remaining fields
are Modelled from the spec: the TIFF-codec collaborator capability of
"byte-order-aware decoding of integers, rationals, ASCII strings from raw
value bytes" (spec section 2), i.e. the outcomes of the Go methods
`Int64(i)`, `Int(i)`, `Rat2(i)` and `StringVal()`. -/
structure Tag where
  id : Nat
  tagType : DataType
  count : Nat
  val : List Nat
  valOffset : Nat
  int64At : Nat → Except String Int
  intAt : Nat → Except String Int
  rat2At : Nat → Except String (Int × Int)
  stringVal : Except String String

/-- tiff.Tag.Format categories. -/
inductive TagFormat
  | intVal
  | floatVal
  | ratVal
  | stringVal
  | undefVal
  deriving DecidableEq, Repr

/-- Modelled from the spec: the collaborator's format classification of a tag
(integer / rational / string / float / undefined) by its TIFF type. -/
def Tag.format (t : Tag) : TagFormat :=
  match t.tagType with
  | .dtByte | .dtShort | .dtLong | .dtSByte | .dtSShort | .dtSLong => .intVal
  | .dtRational | .dtSRational => .ratVal
  | .dtAscii => .stringVal
  | .dtFloat | .dtDouble => .floatVal
  | .dtUndefined => .undefVal

/-- Go multiple-return convention `v, err := ...` where the caller discards
`err`: on error the value accompanying it is the zero value.
Modelled from the spec for the collaborator extraction methods. -/
def goStrZ (e : Except String String) : String :=
  match e with
  | .ok s => s
  | .error _ => ""

/-- Zero-value convention for discarded integer errors (`a, _ := tag.Int(0)`). -/
def goIntZ (e : Except String Int) : Int :=
  match e with
  | .ok v => v
  | .error _ => 0

/-- tiff.Dir: one decoded IFD, an ordered sequence of tags. -/
structure Dir where
  tags : List Tag

/-- tiff.Tiff: the decoded top-level directory set plus the byte order. -/
structure TiffModel where
  dirs : List Dir
  order : ByteOrder

/-- exif.DecodeOptions. -/
structure DecodeOptions where
  keepUnknownTags : Bool
  maxExifSize : Int

/-- The keys of the sub-IFD error map (exif/errors.go `tiffError` constants). -/
inductive TiffErrorKey
  | loadExif
  | loadGPS
  | loadInteroperability
  deriving DecidableEq, Repr

/-- exif.tiffErrors: a map from traversal identity to error text, embedded as
an association list with unique keys. -/
abbrev TiffErrors := List (TiffErrorKey × String)

/-- The Go error values the embedded code distinguishes by dynamic type:
TagNotPresentError, tiffErrors, decodeError, and plain fmt.Errorf errors. -/
inductive GoError
  | tagNotPresent (name : FieldName)
  | tiffErrs (te : TiffErrors)
  | decodeFailed (cause : String)
  | errMsg (msg : String)
  deriving DecidableEq, Repr

/-- Go map read `te[k]` (presence). -/
def teLookup (te : TiffErrors) (k : TiffErrorKey) : Option String :=
  (te.find? (fun p => p.1 = k)).map (fun p => p.2)

/-- Go map write `te[k] = v` on the sub-IFD error map. -/
def teInsert (te : TiffErrors) (k : TiffErrorKey) (v : String) : TiffErrors :=
  if te.any (fun p => p.1 = k) then
    te.map (fun p => if p.1 = k then (k, v) else p)
  else
    te ++ [(k, v)]

/-- exif.IsCriticalError: true unless the error is a tiffErrors value. -/
def IsCriticalError (err : GoError) : Bool :=
  match err with
  | .tiffErrs _ => false
  | _ => true

/-- exif.IsExifError: the error is a tiffErrors value containing the
EXIF sub-IFD stage. -/
def IsExifError (err : GoError) : Bool :=
  match err with
  | .tiffErrs te => (teLookup te .loadExif).isSome
  | _ => false

/-- exif.IsGPSError: the error is a tiffErrors value containing the
GPS sub-IFD stage. -/
def IsGPSError (err : GoError) : Bool :=
  match err with
  | .tiffErrs te => (teLookup te .loadGPS).isSome
  | _ => false

/-- exif.IsInteroperabilityError: the error is a tiffErrors value containing
the Interoperability sub-IFD stage. -/
def IsInteroperabilityError (err : GoError) : Bool :=
  match err with
  | .tiffErrs te => (teLookup te .loadInteroperability).isSome
  | _ => false

/-- exif.IsTagNotPresentError. -/
def IsTagNotPresentError (err : GoError) : Bool :=
  match err with
  | .tagNotPresent _ => true
  | _ => false

/-- The field mapping (Go `map[FieldName]*tiff.Tag`), embedded as a partial
function (Go maps are unordered); insertion overwrites the binding of an
existing key. -/
abbrev Fields := FieldName → Option Tag

/-- The empty map. -/
def emptyFields : Fields := fun _ => none

/-- Go map write `x.Fields[name] = tag`. -/
def mapInsert (fs : Fields) (n : FieldName) (t : Tag) : Fields :=
  fun k => if k = n then some t else fs k

/-- Go map read `x.Fields[name]` (with presence flag). -/
def fieldsLookup (fs : Fields) (n : FieldName) : Option Tag :=
  fs n

/-- exif.Exif: the decode result (tiff structure, field mapping, raw TIFF
buffer, options). -/
structure Exif where
  tiff : TiffModel
  fields : Fields
  raw : List Nat
  opts : DecodeOptions

/-- exif.New. -/
def exifNew (tif : TiffModel) (raw : List Nat) (opts : DecodeOptions) : Exif :=
  { tiff := tif, fields := emptyFields, raw := raw, opts := opts }

/-- exif.Exif.Get: retrieve a tag by field name; absence is a
TagNotPresentError. -/
def Exif.get (x : Exif) (name : FieldName) : Except GoError Tag :=
  match fieldsLookup x.fields name with
  | some t => .ok t
  | none => .error (.tagNotPresent name)

/-- The tag-id to field-name tables (Go `map[uint16]models.FieldName`),
embedded as partial functions. -/
abbrev TagIdMap := Nat → Option FieldName

/-- The empty tag-id map (`map[uint16]exif.FieldName{}`). -/
def emptyTagIdMap : TagIdMap := fun _ => none

/-- A static tag-id map literal. -/
def listToMap (l : List (Nat × FieldName)) : TagIdMap :=
  fun id => (l.find? (fun p => p.1 = id)).map (fun p => p.2)

/-- Go map read `fieldMap[tag.Id]`: the zero value "" when absent. -/
def tagIdLookup (m : TagIdMap) (id : Nat) : FieldName :=
  (m id).getD ""

/-- Go map write `m[k] = v` on a tag-id map. -/
def natMapInsert (m : TagIdMap) (k : Nat) (v : FieldName) : TagIdMap :=
  fun j => if j = k then some v else m j

/-- Modelled from the spec: models.UnknownPrefix followed by the tag id in
hex format (the synthesized placeholder name for unknown tag ids). -/
def unknownTagName (id : Nat) : FieldName :=
  "UnknownTag_" ++ String.mk (Nat.toDigits 16 id)

/-- The per-tag body of exif.Exif.LoadTags: bind the mapped name, or the
synthesized unknown name when showMissing, or skip. -/
def loadTagsStep (fieldMap : TagIdMap) (showMissing : Bool) (fs : Fields) (tag : Tag) : Fields :=
  let name := tagIdLookup fieldMap tag.id
  if name = "" then
    if !showMissing then fs
    else mapInsert fs (unknownTagName tag.id) tag
  else
    mapInsert fs name tag

/-- exif.Exif.LoadTags: merge a directory's tags into the field mapping using
a tag-id to field-name table; unknown ids are dropped unless showMissing. -/
def loadTags (x : Exif) (d : Dir) (fieldMap : TagIdMap) (showMissing : Bool) : Exif :=
  { x with fields := d.tags.foldl (loadTagsStep fieldMap showMissing) x.fields }

/-- Modelled from the spec: the TIFF-codec collaborator interface
(spec section 6): `decodeDir order buf off` is the outcome of
`tiff.DecodeDir` on a bytes.Reader over `buf` positioned at `off`;
`tiffDecode buf` is `tiff.Decode` on `buf`, returning the directory set and
the number of bytes it consumed; `heifExtract` is the HEIF EXIF-extraction
capability `heif.ExtractExif`.  Each is a pure oracle: the same bytes always
produce the same outcome. -/
structure DecodeEnv where
  decodeDir : ByteOrder → List Nat → Int → Except String Dir
  tiffDecode : List Nat → Except String (TiffModel × Nat)
  heifExtract : List Nat → Except String (List Nat)
  /-- Modelled from the spec: the NikonV3 maker-note parser.  Its source is
  not among the provided sources — only its registration in mknote.All is —
  so it is embedded from the spec's words: a registered vendor parser that
  reads the decode result's fields and may add or overwrite fields or
  return a recorded failure (spec sections 2, 3 "Parser" and 4.4), and
  whose only shared state is the read-only parser registry (spec section
  5), i.e. a pure per-decode function of the decode state. -/
  nikonV3Parse : Exif → Exif × Option GoError

/-- Spec-modelled registry names (models package, not under src/): the three
sub-IFD pointer fields and the generic fields the embedded parsers read. -/
def exifIFDPointer : FieldName := "ExifIFDPointer"

def gpsInfoIFDPointer : FieldName := "GPSInfoIFDPointer"

def interoperabilityIFDPointer : FieldName := "InteroperabilityIFDPointer"

def makeName : FieldName := "Make"

def modelName : FieldName := "Model"

def makerNoteName : FieldName := "MakerNote"

/-- Modelled from the spec: the subset of the static models.ExifFields
registry (tag id to semantic name, primary/Exif namespace) that the claims
exercise; the registry is static data scoped per sub-directory. -/
def exifFields : TagIdMap := listToMap
  [(0x010f, makeName), (0x0110, modelName),
   (0x8769, exifIFDPointer), (0x8825, gpsInfoIFDPointer),
   (0xa005, interoperabilityIFDPointer),
   (0x927c, makerNoteName), (0x920a, "FocalLength"), (0x9000, "ExifVersion")]

/-- Modelled from the spec: subset of models.ThumbnailFields. -/
def thumbnailFields : TagIdMap := listToMap
  [(0x0201, "ThumbJPEGInterchangeFormat"),
   (0x0202, "ThumbJPEGInterchangeFormatLength")]

/-- Modelled from the spec: subset of models.GpsFields. -/
def gpsFields : TagIdMap := listToMap
  [(0x0001, "GPSLatitudeRef"), (0x0002, "GPSLatitude"),
   (0x0003, "GPSLongitudeRef"), (0x0004, "GPSLongitude"),
   (0x0005, "GPSAltitudeRef"), (0x0006, "GPSAltitude"),
   (0x0007, "GPSTimeStamp"), (0x001d, "GPSDateStamp")]

/-- Modelled from the spec: subset of models.InteropFields. -/
def interopFields : TagIdMap := listToMap
  [(0x0001, "InteroperabilityIndex"), (0x0002, "InteroperabilityVersion")]

/-- exif.Exif.loadSubDir (exif/parser.go): look up the pointer field (absence
or an unreadable integer offset returns nil without recording anything), seek
the raw buffer to the offset (bytes.Reader.Seek fails exactly on a negative
position) and decode one directory there, merging its tags on success. -/
def loadSubDir (env : DecodeEnv) (x : Exif) (ptr : FieldName)
    (fieldMap : TagIdMap) : Exif × Option String :=
  match x.get ptr with
  | .error _ => (x, none)
  | .ok tag =>
    match tag.int64At 0 with
    | .error _ => (x, none)
    | .ok offset =>
      if offset < 0 then
        (x, some ("exif: seek to sub-IFD " ++ ptr ++ " failed"))
      else
        match env.decodeDir x.tiff.order x.raw offset with
        | .error e => (x, some ("exif: sub-IFD " ++ ptr ++ " decode failed: " ++ e))
        | .ok subDir => (loadTags x subDir fieldMap x.opts.keepUnknownTags, none)

/-- The main-directory stage of the default parser (exif/parser.go
parser.Parse, first half): load the primary directory's tags, then the
thumbnail directory's if present.  Only invoked when the directory set is
non-empty. -/
def parserMainLoad (x : Exif) : Exif :=
  match x.tiff.dirs with
  | [] => x
  | d0 :: rest =>
    let x1 := loadTags x d0 exifFields x.opts.keepUnknownTags
    match rest with
    | d1 :: _ => loadTags x1 d1 thumbnailFields x.opts.keepUnknownTags
    | [] => x1

/-- The sub-IFD stage of the default parser (exif/parser.go parser.Parse,
second half): attempt the Exif, GPS and Interoperability traversals in order,
recording each failure in the tiffErrors map against its stage key. -/
def parserSubIFDs (env : DecodeEnv) (x : Exif) : Exif × TiffErrors :=
  let r1 := loadSubDir env x exifIFDPointer exifFields
  let te1 : TiffErrors := match r1.2 with
    | some s => teInsert [] .loadExif s
    | none => []
  let r2 := loadSubDir env r1.1 gpsInfoIFDPointer gpsFields
  let te2 := match r2.2 with
    | some s => teInsert te1 .loadGPS s
    | none => te1
  let r3 := loadSubDir env r2.1 interoperabilityIFDPointer interopFields
  let te3 := match r3.2 with
    | some s => teInsert te2 .loadInteroperability s
    | none => te2
  (r3.1, te3)

/-- exif.parser.Parse: the default parser.  Errors if the directory set is
empty; otherwise loads the main directories, attempts the three sub-IFD
traversals independently, and returns the aggregated tiffErrors value when
any traversal failed. -/
def parserParse (env : DecodeEnv) (x : Exif) : Exif × Option GoError :=
  if x.tiff.dirs.isEmpty then
    (x, some (.errMsg "invalid exif data"))
  else
    let x1 := parserMainLoad x
    let (x2, te) := parserSubIFDs env x1
    if te.length > 0 then (x2, some (.tiffErrs te)) else (x2, none)

/-- mknote Sony field names (mknote/sony.go). -/
def SonyShutterCount : FieldName := "Sony.ShutterCount"

def SonyShutterCount2 : FieldName := "Sony.ShutterCount2"

def SonyShutterCount3 : FieldName := "Sony.ShutterCount3"

def SonyInternalSerialNumber : FieldName := "Sony.InternalSerialNumber"

def SonyInternalSerialNumber2 : FieldName := "Sony.InternalSerialNumber2"

/-- mknote sony0x9050 (internal field name). -/
def sony0x9050Name : FieldName := "Sony.0x9050"

/-- mknote.makerNoteSonyFields. -/
def makerNoteSonyFields : TagIdMap := listToMap [(0x9050, sony0x9050Name)]

/-- mknote.SonyDataType. -/
inductive SonyDataType
  | sonyUint24
  | sonyUint32
  | sonyHexString
  deriving DecidableEq, Repr

/-- mknote.SonyBinaryTag: a descriptor for a scalar at a fixed offset in the
descrambled 0x9050 blob.  Go zero values supply the defaults. -/
structure SonyBinaryTag where
  fieldName : FieldName
  offset : Nat
  models : List String := []
  dataType : SonyDataType
  length : Nat := 0
  ifNull : Bool := false
  deriving DecidableEq, Repr

/-- mknote.Sony0x9050BinaryTags: the static ordered descriptor list. -/
def Sony0x9050BinaryTags : List SonyBinaryTag :=
  [{ fieldName := SonyShutterCount, offset := 0x3a, dataType := .sonyUint24,
     models := ["ILCA-99M2", "ILCE-1", "ILCE-6100", "ILCE-6300", "ILCE-6400", "ILCE-6500", "ILCE-6600", "ILCE-7C", "ILCE-7M3", "ILCE-7M4", "ILCE-7RM2", "ILCE-7RM3", "ILCE-7RM3A", "ILCE-7RM4", "ILCE-7RM4A", "ILCE-7RM5", "ILCE-7SM2", "ILCE-7SM3", "ILCE-9", "ILCE-9M2", "ILME-FX3", "ZV-E10"] },
   { fieldName := SonyShutterCount2, offset := 0x50, dataType := .sonyUint24,
     models := ["ILCE-1", "ILCE-6100", "ILCE-6400", "ILCE-6600", "ILCE-7C", "ILCE-7M4", "ILCE-7RM4", "ILCE-7RM4A", "ILCE-7RM5", "ILCE-7SM3", "ILCE-9M2", "ILME-FX3", "ZV-E10"] },
   { fieldName := SonyShutterCount2, offset := 0x52, dataType := .sonyUint24,
     models := ["ILCE-7M3", "ILCE-7RM3", "ILCE-7RM3A"] },
   { fieldName := SonyShutterCount2, offset := 0x58, dataType := .sonyUint24,
     models := ["ILCE-6300", "ILCE-6400", "ILCE-6500", "ILCE-6600", "ILCE-7C", "ILCE-7M3", "ILCE-7RM2", "ILCE-7RM3", "ILCE-7RM3A", "ILCE-7RM4", "ILCE-7RM4A", "ILCE-7SM2", "ILCE-9", "ILCE-9M2", "ILCA-99M2", "ZV-E10"] },
   { fieldName := SonyShutterCount3, offset := 0x019f, dataType := .sonyUint32,
     models := ["ILCE-6100", "ILCE-6400", "ILCE-6600", "ILCE-7C", "ILCE-7M3", "ILCE-7RM3", "ILCE-7RM3A", "ILCE-7RM4", "ILCE-7RM4A", "ILCE-9", "ILCE-9M2", "ZV-E10"] },
   { fieldName := SonyShutterCount3, offset := 0x01cb, dataType := .sonyUint32,
     models := ["ILCE-7RM2", "ILCE-7SM2"] },
   { fieldName := SonyShutterCount3, offset := 0x01cd, dataType := .sonyUint32,
     models := ["ILCE-6300", "ILCE-6500", "ILCA-99M2"] },
   { fieldName := SonyShutterCount3, offset := 0x000a, dataType := .sonyUint24,
     models := ["ILCE-6700", "ILCE-7CM2", "ILCE-7CR"] },
   { fieldName := SonyShutterCount2, offset := 0x4c, dataType := .sonyUint24,
     models := ["ILCE-7", "ILCE-7R", "ILCE-7S", "ILCE-7M2", "ILCE-5000", "ILCE-5100", "ILCE-6000", "ILCE-WX1"] },
   { fieldName := SonyShutterCount, offset := 0x32, dataType := .sonyUint24 },
   { fieldName := SonyShutterCount3, offset := 0x01a0, dataType := .sonyUint32,
     models := ["ILCE-5100", "ILCE-QX1", "ILCA-68", "ILCA-77M2"] },
   { fieldName := SonyShutterCount3, offset := 0x01aa, dataType := .sonyUint32,
     models := ["SLT-A58", "SLT-A99", "SLT-A99V", "HV", "NEX-3N", "NEX-5R", "NEX-5T", "NEX-6", "NEX-VG900", "NEX-VG30E", "ILCE-3000", "ILCE-3500", "ILCE-5000"] },
   { fieldName := SonyShutterCount3, offset := 0x01bd, dataType := .sonyUint32,
     models := ["SLT-A37", "SLT-A37V", "SLT-A57", "SLT-A57V", "SLT-A65", "SLT-A65V", "SLT-A77", "SLT-A77V", "Lunar", "NEX-F3", "NEX-5N", "NEX-7", "NEX-VG20E"] },
   { fieldName := SonyInternalSerialNumber, offset := 0x7c, dataType := .sonyUint32,
     models := ["ILCE-", "ILCA-", "Lunar", "NEX", "SLT-", "HV"] },
   { fieldName := SonyInternalSerialNumber, offset := 0x7c, dataType := .sonyHexString, length := 6,
     models := ["ILCE-1"] },
   { fieldName := SonyInternalSerialNumber2, offset := 0xf0, dataType := .sonyHexString, length := 5,
     models := ["SLT-", "HV", "ILCA-"] },
   { fieldName := SonyInternalSerialNumber, offset := 0x38, dataType := .sonyHexString, length := 6,
     models := ["ZV-E10M2"] },
   { fieldName := SonyInternalSerialNumber, offset := 0x88, dataType := .sonyHexString, length := 6,
     models := ["ILCA-99M2", "ILCE-1", "ILCE-6100", "ILCE-6300", "ILCE-6400", "ILCE-6500", "ILCE-6600", "ILCE-7C", "ILCE-7M3", "ILCE-7M4", "ILCE-7RM2", "ILCE-7RM3", "ILCE-7RM3A", "ILCE-7RM4", "ILCE-7RM4A", "ILCE-7RM5", "ILCE-7SM2", "ILCE-7SM3", "ILCE-9", "ILCE-9M2", "ILME-FX3", "ZV-E10"] }]

/-- mknote.descramble0x9050's substitution table: a 256-entry table built by
writing, for every i < 249, value i at position (i*i*i) % 249, and value i at
position i for i >= 249 (the table starts zero-initialized). -/
def descrambleTbl : List Nat :=
  (List.range 256).foldl
    (fun tbl i => if i < 249 then tbl.set (i * i * i % 249) i else tbl.set i i)
    (List.replicate 256 0)

/-- mknote.descramble0x9050: apply the substitution table to every byte of
the blob (the Go function mutates in place; the embedding returns the new
byte list). -/
def descramble0x9050 (val : List Nat) : List Nat :=
  val.map (fun v => descrambleTbl.getD v 0)

/-- The camera firmware's forward scramble.  Modelled from the spec:
"scrambled = v^3 mod 249" for v < 249, values >= 249 stored as is. -/
def forwardScramble (v : Nat) : Nat :=
  if v < 249 then v * v * v % 249 else v

/-- mknote.checkModel: does the camera model start with any of the
descriptor's model-name prefixes? -/
def checkModel (bt : SonyBinaryTag) (model : String) : Bool :=
  bt.models.any (fun mpre => mpre.isPrefixOf model)

/-- mknote.checkNotNull: some byte of the value is non-zero. -/
def checkNotNull (b : List Nat) : Bool :=
  b.any (fun v => v ≠ 0)

/-- encoding/hex lowercase digit. -/
def hexDigit (n : Nat) : Nat :=
  if n < 10 then 48 + n else 87 + n

/-- encoding/hex.Encode of a byte run to ASCII codes. -/
def hexEncode (l : List Nat) : List Nat :=
  l.foldr (fun b acc => hexDigit (b / 16) :: hexDigit (b % 16) :: acc) []

/-- mknote.sonyEncode: extract the descriptor's raw value bytes from the
descrambled blob (zero-filled when the blob is too short) and the TIFF type
used for the synthesized tag. -/
def sonyEncode (bt : SonyBinaryTag) (buf : List Nat) : List Nat × DataType :=
  match bt.dataType with
  | .sonyUint24 =>
    if buf.length ≥ bt.offset + 3 then
      ([buf.getD bt.offset 0, buf.getD (bt.offset + 1) 0, buf.getD (bt.offset + 2) 0, 0], .dtLong)
    else
      ([0, 0, 0, 0], .dtLong)
  | .sonyUint32 =>
    if buf.length ≥ bt.offset + 4 then
      ([buf.getD bt.offset 0, buf.getD (bt.offset + 1) 0, buf.getD (bt.offset + 2) 0, buf.getD (bt.offset + 3) 0], .dtLong)
    else
      ([0, 0, 0, 0], .dtLong)
  | .sonyHexString =>
    if buf.length ≥ bt.offset + bt.length then
      (hexEncode ((buf.drop bt.offset).take bt.length) ++ [0], .dtAscii)
    else
      (List.replicate (2 * bt.length + 1) 0, .dtAscii)

/-- Little-endian unsigned integer read of a byte list.  Modelled from the
spec: the collaborator's byte-order-aware integer decoding, used for the
views of tags synthesized by tiff.MakeTag. -/
def leUint (val : List Nat) : Int :=
  (val.foldr (fun b acc => acc * 256 + b) 0 : Nat)

/-- Bytes interpreted as an ASCII string (collaborator StringVal view of a
synthesized tag). -/
def bytesToStr (l : List Nat) : String :=
  String.mk (l.map (fun b => Char.ofNat b))

/-- tiff.MakeTag.  Modelled from the spec: the collaborator constructs a tag
with the given id, type, count and raw value bytes (value offset 0); its
typed views decode the value bytes little-endian. -/
def tiffMakeTag (id : Nat) (dt : DataType) (count : Nat) (val : List Nat) : Tag :=
  { id := id, tagType := dt, count := count, val := val, valOffset := 0,
    int64At := fun _ => .ok (leUint val),
    intAt := fun _ => .ok (leUint val),
    rat2At := fun _ => .error "tiff: tag is not a rational",
    stringVal := .ok (bytesToStr val) }

/-- mknote.makeBinaryTag: skip descriptors whose model list does not match,
and all-zero values unless the descriptor allows nulls. -/
def makeBinaryTag (bt : SonyBinaryTag) (model : String) (buf : List Nat) (id : Nat) : Option Tag :=
  if !(checkModel bt model) then
    none
  else
    let vd := sonyEncode bt buf
    if !bt.ifNull && !(checkNotNull vd.1) then
      none
    else
      some (tiffMakeTag id vd.2 1 vd.1)

/-- "SONY DSC \0" as bytes. -/
def sonyDSCSig : List Nat := [83, 79, 78, 89, 32, 68, 83, 67, 32, 0]

/-- "SONY CAM \0" as bytes. -/
def sonyCAMSig : List Nat := [83, 79, 78, 89, 32, 67, 65, 77, 32, 0]

/-- "SONY MOBILE \0" as bytes. -/
def sonyMOBILESig : List Nat := [83, 79, 78, 89, 32, 77, 79, 66, 73, 76, 69, 32, 0]

/-- "\0\0SONY PIC\0" as bytes. -/
def sonyPICSig : List Nat := [0, 0, 83, 79, 78, 89, 32, 80, 73, 67, 0]

/-- "VHAB     \0" as bytes. -/
def sonyVHABSig : List Nat := [86, 72, 65, 66, 32, 32, 32, 32, 32, 0]

/-- The signature test of sony.Parse: when the note begins with one of the
fixed ASCII signatures, an additional 12-byte header offset is skipped
before the nested directory. -/
def sonySigOffset (val : List Nat) : Nat :=
  if val.take 10 = sonyDSCSig ∨ val.take 10 = sonyCAMSig ∨
     val.take 13 = sonyMOBILESig ∨ val.take 11 = sonyPICSig ∨
     val.take 10 = sonyVHABSig then 12 else 0

/-- The per-descriptor loop body of sony.Parse: for one (index, descriptor)
pair, write `Sony0x9050Fields[uint16(i)] = bt.fieldName` into the
package-level map, and append the synthesized tag when makeBinaryTag yields
one. -/
def sonyLoopStep (model : String) (buf : List Nat)
    (acc : TagIdMap × List Tag) (p : Nat × SonyBinaryTag) : TagIdMap × List Tag :=
  let g1 := natMapInsert acc.1 p.1 p.2.fieldName
  match makeBinaryTag p.2 model buf p.1 with
  | some t => (g1, acc.2 ++ [t])
  | none => (g1, acc.2)

/-- The descriptor loop of sony.Parse over the indexed static list. -/
def sonyLoop (g : TagIdMap) (model : String) (buf : List Nat) : TagIdMap × List Tag :=
  Sony0x9050BinaryTags.enum.foldl (sonyLoopStep model buf) (g, [])

/-- mknote.sony.Parse (mknote/sony.go).  `g` is the package-level mutable map
Sony0x9050Fields, threaded explicitly; the returned map is its state after
the call.  Absent Model/Make/MakerNote fields, a foreign brand string, a
too-short note, a failed inner directory decode, and an absent 0x9050 tag
are all silent no-ops.  The optional ASCII signature shifts the directory
offset by 12.  The 0x9050 blob is descrambled in place (the mutation is
visible through the field binding) and the descriptor list synthesizes
pseudo-tags merged under the Sony0x9050Fields map with showMissing true. -/
def sonyParse (env : DecodeEnv) (x : Exif) (g : TagIdMap) :
    Exif × TagIdMap × Option GoError :=
  match x.get modelName with
  | .error _ => (x, g, none)
  | .ok m0 =>
    let model := goStrZ m0.stringVal
    match x.get makeName with
    | .error _ => (x, g, none)
    | .ok m1 =>
      let mk := goStrZ m1.stringVal
      if mk ≠ "SONY" ∧ mk ≠ "HASSELBLAD" then (x, g, none)
      else
        match x.get makerNoteName with
        | .error _ => (x, g, none)
        | .ok m =>
          if m.val.length < 13 then (x, g, none)
          else
            let offset : Nat := sonySigOffset m.val
            let buf := List.replicate m.valOffset 0 ++ m.val
            match env.decodeDir x.tiff.order buf (m.valOffset + offset) with
            | .error _ => (x, g, none)
            | .ok mkNotesDir =>
              let x1 := loadTags x mkNotesDir makerNoteSonyFields false
              match x1.get sony0x9050Name with
              | .error _ => (x1, g, none)
              | .ok m9050 =>
                let dval := descramble0x9050 m9050.val
                let x2 := { x1 with
                  fields := mapInsert x1.fields sony0x9050Name { m9050 with val := dval } }
                let gt := sonyLoop g model dval
                let m9050Dir : Dir := { tags := gt.2 }
                (loadTags x2 m9050Dir gt.1 true, gt.1, none)

/-- The fixed 12-byte Apple maker-note signature "Apple iOS\0\0\x01". -/
def appleSigBytes : List Nat := [65, 112, 112, 108, 101, 32, 105, 79, 83, 0, 0, 1]

/-- mknote.makerNoteAppleFields (mknote/apple.go): the static Apple
tag-id table, including the source's duplicate string values and the
trailing space in "Apple.HDRImageType ". -/
def makerNoteAppleFields : TagIdMap := listToMap
  [(0x0001, "Apple.MakerNoteVersion"),
   (0x0002, "Apple.AEMatrix"),
   (0x0003, "Apple.RunTime"),
   (0x0004, "Apple.AEStable"),
   (0x0005, "Apple.AETarget"),
   (0x0006, "Apple.AEAverage"),
   (0x0007, "Apple.AFStable"),
   (0x0008, "Apple.AccelerationVector"),
   (0x0009, "Apple.SISMethod"),
   (0x000a, "Apple.HDRImageType "),
   (0x000b, "Apple.BurstUUID"),
   (0x000c, "Apple.FocusDistanceRange"),
   (0x000d, "Apple.SphereHealthAverageCurrent"),
   (0x000e, "Apple.Orientation"),
   (0x000f, "Apple.OISMode"),
   (0x0010, "Apple.SphereStatus"),
   (0x0011, "Apple.ContentIdentifier"),
   (0x0012, "Apple.QRMOutputType"),
   (0x0013, "Apple.SphereExternalForceOffset"),
   (0x0014, "Apple.ImageCaptureType"),
   (0x0015, "Apple.ImageUniqueID"),
   (0x0016, "Apple.PhotosOriginatingSignature"),
   (0x0017, "Apple.PhotosOriginatingSignature"),
   (0x0018, "Apple.PhotosOriginatingSignature"),
   (0x0019, "Apple.PhotosOriginatingSignature"),
   (0x001a, "Apple.QualityHint"),
   (0x001b, "Apple.PhotosRenderEffect"),
   (0x001c, "Apple.BracketedCaptureSequenceNumber"),
   (0x001d, "Apple.LuminanceNoiseAmplitude"),
   (0x001e, "Apple.OriginatingAppID"),
   (0x001f, "Apple.PhotosAppFeatureFlags"),
   (0x0020, "Apple.ImageCaptureRequestID"),
   (0x0021, "Apple.HDRHeadroom"),
   (0x0023, "Apple.AFPerformance"),
   (0x0025, "Apple.SceneFlags"),
   (0x0026, "Apple.SignalToNoiseRatioType"),
   (0x0027, "Apple.SignalToNoiseRatio"),
   (0x002b, "Apple.PhotoIdentifier"),
   (0x002d, "Apple.ColorTemperature"),
   (0x002e, "Apple.CameraType"),
   (0x002f, "Apple.FocusPosition"),
   (0x0030, "Apple.HDRGain"),
   (0x0038, "Apple.AFMeasuredDepth"),
   (0x003d, "Apple.AFConfidence"),
   (0x003e, "Apple.ColorCorrectionMatrix"),
   (0x003f, "Apple.GreenGhostMitigationStatus"),
   (0x0040, "Apple.SemanticStyle"),
   (0x0041, "Apple.SemanticStyleRenderingVer"),
   (0x0042, "Apple.SemanticStylePreset"),
   (0x004e, "Apple.Apple_0x004e"),
   (0x004f, "Apple.Apple_0x004f")]

/-- mknote.apple.Parse (mknote/apple.go): absent MakerNote, fewer than 12
bytes, or a first-12-byte mismatch with the Apple signature are silent
no-ops; on match, one directory is decoded at offset 14 within the note's
own bytes, and a decode failure is returned as the error. -/
def appleParse (env : DecodeEnv) (x : Exif) : Exif × Option GoError :=
  match x.get makerNoteName with
  | .error _ => (x, none)
  | .ok m =>
    if m.val.length < 12 then (x, none)
    else if m.val.take 12 ≠ appleSigBytes then (x, none)
    else
      match env.decodeDir x.tiff.order m.val 14 with
      | .error e => (x, some (.errMsg e))
      | .ok mkNotesDir => (loadTags x mkNotesDir makerNoteAppleFields false, none)

/-- mknote.makerNoteCanonFields (mknote/canon.go).  Names defined outside
the provided sources (Panorama, FirmwareVersion, ...) are Modelled from the
spec as their evident field-name strings. -/
def makerNoteCanonFields : TagIdMap := listToMap
  [(0x0000, "Canon.0x0000"),
   (0x0001, "Canon.CameraSettings"),
   (0x0002, "FocalLength"),
   (0x0003, "Canon.0x0003"),
   (0x0004, "Canon.ShotInfo"),
   (0x0005, "Panorama"),
   (0x0006, "Canon.ImageType"),
   (0x0007, "FirmwareVersion"),
   (0x0008, "FileNumber"),
   (0x0009, "OwnerName"),
   (0x000c, "Canon.SerialNumber"),
   (0x000d, "CameraInfo"),
   (0x000f, "CustomFunctions"),
   (0x0010, "ModelID"),
   (0x0012, "PictureInfo"),
   (0x0013, "ThumbnailImageValidArea"),
   (0x0015, "SerialNumberFormat"),
   (0x001a, "SuperMacro"),
   (0x0026, "Canon.AFInfo"),
   (0x0028, "Canon.ImageUniqueID"),
   (0x0035, "Canon.TimeInfo"),
   (0x0083, "OriginalDecisionDataOffset"),
   (0x00a4, "WhiteBalanceTable"),
   (0x0093, "Canon.FileInfo"),
   (0x0095, "LensModel"),
   (0x0096, "InternalSerialNumber"),
   (0x0097, "DustRemovalData"),
   (0x0099, "CustomFunctions"),
   (0x00a0, "ProcessingInfo"),
   (0x00aa, "MeasuredColor"),
   (0x00b4, "ColorSpace"),
   (0x00b5, "Canon.0x00b5"),
   (0x00b6, "Canon.PreviewImageInfo"),
   (0x00c0, "Canon.0x00c0"),
   (0x00c1, "Canon.0x00c1"),
   (0x00d0, "VRDOffset"),
   (0x00e0, "SensorInfo"),
   (0x4001, "ColorData")]

/-- mknote.canon.Parse (mknote/canon.go): absent MakerNote is a silent
no-op; a failed Make lookup is propagated; a non-Canon Make or an unreadable
Make string is a silent no-op.  The note's directory is decoded against a
zero-padded buffer at the note's own absolute value offset, and a decode
failure is returned as the error. -/
def canonParse (env : DecodeEnv) (x : Exif) : Exif × Option GoError :=
  match x.get makerNoteName with
  | .error _ => (x, none)
  | .ok m =>
    match x.get makeName with
    | .error e => (x, some e)
    | .ok mk0 =>
      match mk0.stringVal with
      | .error _ => (x, none)
      | .ok val =>
        if val ≠ "Canon" then (x, none)
        else
          let buf := List.replicate m.valOffset 0 ++ m.val
          match env.decodeDir x.tiff.order buf m.valOffset with
          | .error e => (x, some (.errMsg e))
          | .ok mkNotesDir => (loadTags x mkNotesDir makerNoteCanonFields false, none)

/-- The DNG sub-IFD pointer field name (exif registry; Modelled from the
spec's field registry, as for the other pointer names). -/
def subIfdsPointer : FieldName := "SubIfdsPointer"

/-- mknote.subIfdMap: prefix a field name with its sub-IFD namespace. -/
def subIfdMap (ifd : String) (fn : FieldName) : FieldName :=
  ifd ++ "." ++ fn

/-- mknote.SubIFD0Fields. -/
def SubIFD0Fields : TagIdMap := listToMap
  [(0x00fe, subIfdMap "SubIfd0" "SubfileType"),
   (0x0100, subIfdMap "SubIfd0" "Width"),
   (0x0101, subIfdMap "SubIfd0" "ImageLength"),
   (0x0103, subIfdMap "SubIfd0" "Compression"),
   (0x0111, subIfdMap "SubIfd0" "PreviewImageStart"),
   (0x0117, subIfdMap "SubIfd0" "PreviewImageLength"),
   (0xc71a, subIfdMap "SubIfd0" "PreviewColorSpace"),
   (0xc71b, subIfdMap "SubIfd0" "PreviewDateTime")]

/-- mknote.SubIFD1Fields. -/
def SubIFD1Fields : TagIdMap := listToMap
  [(0x00fe, subIfdMap "SubIfd1" "SubfileType"),
   (0x0100, subIfdMap "SubIfd1" "Width"),
   (0x0101, subIfdMap "SubIfd1" "ImageLength"),
   (0x0103, subIfdMap "SubIfd1" "Compression"),
   (0x0111, subIfdMap "SubIfd1" "PreviewImageStart"),
   (0x0117, subIfdMap "SubIfd1" "PreviewImageLength"),
   (0xc71a, subIfdMap "SubIfd1" "PreviewColorSpace"),
   (0xc71b, subIfdMap "SubIfd1" "PreviewDateTime")]

/-- mknote.SubIFD2Fields. -/
def SubIFD2Fields : TagIdMap := listToMap
  [(0x00fe, subIfdMap "SubIfd2" "SubfileType"),
   (0x0100, subIfdMap "SubIfd2" "Width"),
   (0x0101, subIfdMap "SubIfd2" "ImageLength"),
   (0x0103, subIfdMap "SubIfd2" "Compression"),
   (0x0111, subIfdMap "SubIfd2" "JpgFromRawStart"),
   (0x0117, subIfdMap "SubIfd2" "JpgFromRawLength"),
   (0xc71a, subIfdMap "SubIfd2" "PreviewColorSpace"),
   (0xc71b, subIfdMap "SubIfd2" "PreviewDateTime")]

/-- The per-sub-IFD loop of adobeDNG.Parse: for the i-th field map, read the
i-th pointer value (an unreadable value ends the loop with nil, keeping the
fields merged so far), seek the raw buffer and decode one directory there,
propagating seek/decode failures, and merge the directory's tags. -/
def adobeDNGLoop (env : DecodeEnv) (m : Tag) :
    List TagIdMap → Nat → Exif → Exif × Option GoError
  | [], _, x => (x, none)
  | sub :: rest, i, x =>
    match m.int64At i with
    | .error _ => (x, none)
    | .ok offset =>
      if offset < 0 then
        (x, some (.errMsg ("exif: seek to sub-IFD " ++ subIfdsPointer ++ " failed")))
      else
        match env.decodeDir x.tiff.order x.raw offset with
        | .error e =>
          (x, some (.errMsg ("exif: sub-IFD " ++ subIfdsPointer ++ " decode failed: " ++ e)))
        | .ok subDir => adobeDNGLoop env m rest (i + 1) (loadTags x subDir sub false)

/-- mknote.adobeDNG.Parse (src/unnamed/part_001): an absent SubIfds pointer
or a zero count is a silent no-op; otherwise the three DNG sub-IFDs are
decoded from the raw buffer in turn under their own field maps. -/
def adobeDNGParse (env : DecodeEnv) (x : Exif) : Exif × Option GoError :=
  match x.get subIfdsPointer with
  | .error _ => (x, none)
  | .ok m =>
    if ¬ m.count > 0 then (x, none)
    else adobeDNGLoop env m [SubIFD0Fields, SubIFD1Fields, SubIFD2Fields] 0 x

/-- A registered parser as invoked by the decode loop, with the package-level
Sony0x9050Fields map threaded as explicit state. -/
abbrev ParserFn := Exif → TagIdMap → Exif × TagIdMap × Option GoError

/-- The parser loop of DecodeWithOptions / DecodeWithParseHeaderAndOptions:
run the registered parsers in order, stopping at the first error; a
tiffErrors value is returned as is, any other parser error is wrapped
("exif: parser %v failed"; the index/cause formatting is elided). -/
def runParsers : List ParserFn → Exif → TagIdMap → Exif × TagIdMap × Option GoError
  | [], x, g => (x, g, none)
  | p :: ps, x, g =>
    match p x g with
    | (x1, g1, none) => runParsers ps x1 g1
    | (x1, g1, some e) =>
      match e with
      | .tiffErrs te => (x1, g1, some (.tiffErrs te))
      | _ => (x1, g1, some (.errMsg "exif: parser failed"))

/-- exif.fileType. -/
inductive FileType
  | tiff
  | rawExif
  | heif
  | jpeg
  deriving DecidableEq, Repr

/-- exif.detectFileType: classify by the first 8 bytes ("II*\0" / "MM\0*" is
TIFF, "Exif" is a raw EXIF block, bytes 4-7 "ftyp" is HEIF, else JPEG). -/
def detectFileType (header : List Nat) : FileType :=
  if header.take 4 = [0x49, 0x49, 0x2a, 0x00] ∨ header.take 4 = [0x4d, 0x4d, 0x00, 0x2a] then .tiff
  else if header.take 4 = [0x45, 0x78, 0x69, 0x66] then .rawExif
  else if header.drop 4 = [0x66, 0x74, 0x79, 0x70] then .heif
  else .jpeg

/-- "Exif\0\0" as bytes. -/
def exifMark : List Nat := [69, 120, 105, 102, 0, 0]

/-- exif.newAppSec's scan loop: find a 0xFF byte immediately followed by the
marker, read the 16-bit big-endian section length, and return that many
content bytes (a zero length resumes scanning; a negative length after the
-2 adjustment yields an empty section; a short stream is an error). -/
def appSecScan (marker : Nat) : List Nat → Except String (List Nat)
  | [] => .error "EOF"
  | b :: rest =>
    if b ≠ 0xff then appSecScan marker rest
    else
      match rest with
      | [] => .error "EOF"
      | c :: rest2 =>
        if c ≠ marker then appSecScan marker rest2
        else
          match rest2 with
          | b0 :: b1 :: rest3 =>
            let dataLen : Int := (b0 * 256 + b1 : Int) - 2
            if dataLen = 0 then appSecScan marker rest3
            else if dataLen < 0 then .ok []
            else if (rest3.length : Int) < dataLen then .error "short section read"
            else .ok (rest3.take dataLen.toNat)
          | _ => .error "EOF"

/-- exif.processTIFFFile: tiff.Decode via a TeeReader; the raw buffer is
exactly the prefix the decoder consumed. -/
def processTIFFFile (env : DecodeEnv) (s : List Nat) :
    Except String (List Nat × TiffModel) :=
  match env.tiffDecode s with
  | .error e => .error e
  | .ok (tif, consumed) => .ok (s.take consumed, tif)

/-- exif.processJPEGFile: locate the APP1 section, strip the "Exif\0\0"
intro marker, decode the TIFF structure; the raw buffer is the whole
section body after the marker. -/
def processJPEGFile (env : DecodeEnv) (s : List Nat) :
    Except String (List Nat × TiffModel) :=
  match appSecScan 0xe1 s with
  | .error e => .error e
  | .ok data =>
    if data.length < 6 then .error "exif: failed to find exif intro marker"
    else if data.take 6 ≠ exifMark then .error "exif: failed to find exif intro marker"
    else
      let er := data.drop 6
      match env.tiffDecode er with
      | .error e => .error e
      | .ok (tif, _) => .ok (er, tif)

/-- exif.exifLengthCutoff = 4 MiB. -/
def exifLengthCutoff : Nat := 4 * 1024 * 1024

/-- The option normalization shared by DecodeWithOptions and
DecodeWithParseHeaderAndOptions: a non-positive MaxExifSize becomes the
4 MiB default. -/
def effectiveOptions (opts : DecodeOptions) : DecodeOptions :=
  if opts.maxExifSize ≤ 0 then { opts with maxExifSize := (exifLengthCutoff : Int) } else opts

/-- The number of bytes DecodeWithOptions reads from the stream before it
invokes detectFileType: the io.ReadFull of the fixed 8-byte header (fewer
only when the stream itself is shorter, which is a fatal error). -/
def decodeWithOptionsHeaderRead (s : List Nat) : Nat := min 8 s.length

/-- The container stage of DecodeWithOptions: detect the container from the
8-byte header and produce the raw TIFF byte buffer plus the decoded
directory set (HEIF extraction and raw-EXIF marker stripping included);
errors from the TIFF/JPEG codecs are wrapped as decodeError. -/
def decodePayload (env : DecodeEnv) (s : List Nat) :
    Except GoError (List Nat × TiffModel) :=
  match detectFileType (s.take 8) with
  | .heif =>
    match env.heifExtract s with
    | .error e => .error (.errMsg ("exif: unable to extract exif from heif/heic file: " ++ e))
    | .ok xf =>
      match processTIFFFile env xf with
      | .error e => .error (.decodeFailed e)
      | .ok r => .ok r
  | .rawExif =>
    if s.take 6 ≠ exifMark then .error (.errMsg "exif: unexpected raw exif header")
    else
      match processTIFFFile env (s.drop 6) with
      | .error e => .error (.decodeFailed e)
      | .ok r => .ok r
  | .tiff =>
    match processTIFFFile env s with
    | .error e => .error (.decodeFailed e)
    | .ok r => .ok r
  | .jpeg =>
    match processJPEGFile env s with
    | .error e => .error (.decodeFailed e)
    | .ok r => .ok r

/-- exif.DecodeWithOptions: normalize options, read the 8-byte header,
detect the container, extract the TIFF byte stream per container, decode the
TIFF structure, then run the registered parsers (first error stops the
loop).  `g` is the package-level Sony0x9050Fields map state.  Note that
MaxExifSize is normalized here but not consulted by this path. -/
def decodeWithOptions (env : DecodeEnv) (ps : List ParserFn) (s : List Nat)
    (opts0 : DecodeOptions) (g : TagIdMap) :
    TagIdMap × Except GoError (Exif × Option GoError) :=
  let opts := effectiveOptions opts0
  if s.length < 8 then (g, .error (.errMsg "exif: error reading 8 byte header"))
  else
    match decodePayload env s with
    | .error e => (g, .error e)
    | .ok rt =>
      let x := exifNew rt.2 rt.1 opts
      let r := runParsers ps x g
      (r.2.1, .ok (r.1, r.2.2))

/-- exif.checkExifHeader: at least 8 bytes, a 2-byte MM/II order marker, and
the order-decoded 16-bit value 42. -/
def checkExifHeader (data : List Nat) : Except String Unit :=
  if data.length < 8 then .error "Invalid EXIF header: too short"
  else
    let byteorder := (data.getD 0 0) * 256 + data.getD 1 0
    if byteorder = 0x4d4d then
      if (data.getD 2 0) * 256 + data.getD 3 0 = 42 then .ok ()
      else .error "Invalid EXIF header: want 42"
    else if byteorder = 0x4949 then
      if (data.getD 3 0) * 256 + data.getD 2 0 = 42 then .ok ()
      else .error "Invalid EXIF header: want 42"
    else .error "Invalid EXIF header: unrecognized byte order"

/-- Truth of an Except outcome. -/
def exceptIsOk {ε α : Type _} (e : Except ε α) : Bool :=
  match e with
  | .ok _ => true
  | .error _ => false

/-- The header scan of DecodeWithParseHeaderAndOptions: the first offset at
which checkExifHeader accepts. -/
def findExifHeaderIdx (data : List Nat) : Option Nat :=
  (List.range data.length).find? (fun i => exceptIsOk (checkExifHeader (data.drop i)))

/-- exif.DecodeWithParseHeaderAndOptions: normalize options, read at most
MaxExifSize bytes (io.LimitReader), scan for a TIFF header at increasing
offsets, decode the TIFF structure there and run the registered parsers.
A failed scan is an error (for empty data the Go code's negative reslice
panics and the deferred recover converts it to an error); a failed
tiff.Decode leaves a nil tiff whose use inside the default parser panics,
which the deferred recover also converts to an error. -/
def decodeWithParseHeaderAndOptions (env : DecodeEnv) (ps : List ParserFn)
    (s : List Nat) (opts0 : DecodeOptions) (g : TagIdMap) :
    TagIdMap × Except GoError (Exif × Option GoError) :=
  let opts := effectiveOptions opts0
  let data := s.take opts.maxExifSize.toNat
  match findExifHeaderIdx data with
  | none => (g, .error (.errMsg "Invalid EXIF header"))
  | some i =>
    let er := data.drop i
    match env.tiffDecode er with
    | .error _ => (g, .error (.errMsg "Exif Error"))
    | .ok tc =>
      let x := exifNew tc.1 er opts
      let r := runParsers ps x g
      (r.2.1, .ok (r.1, r.2.2))

/-- The default parser as a ParserFn (it does not touch the Sony map). -/
def defaultParserFn (env : DecodeEnv) : ParserFn := fun x g =>
  let r := parserParse env x
  (r.1, g, r.2)

/-- The Apple parser as a ParserFn. -/
def appleParserFn (env : DecodeEnv) : ParserFn := fun x g =>
  let r := appleParse env x
  (r.1, g, r.2)

/-- The Canon parser as a ParserFn. -/
def canonParserFn (env : DecodeEnv) : ParserFn := fun x g =>
  let r := canonParse env x
  (r.1, g, r.2)

/-- The NikonV3 parser as a ParserFn (the spec-modelled oracle of
DecodeEnv; it does not touch the Sony map). -/
def nikonV3ParserFn (env : DecodeEnv) : ParserFn := fun x g =>
  let r := env.nikonV3Parse x
  (r.1, g, r.2)

/-- The AdobeDNG parser as a ParserFn (it does not touch the Sony map). -/
def adobeDNGParserFn (env : DecodeEnv) : ParserFn := fun x g =>
  let r := adobeDNGParse env x
  (r.1, g, r.2)

/-- The Sony parser as a ParserFn. -/
def sonyParserFn (env : DecodeEnv) : ParserFn := fun x g =>
  sonyParse env x g

/-- The registered parser list in registration order: exif's init registers
the default parser, then mknote's init appends
mknote.All = [Apple, Canon, NikonV3, AdobeDNG, Sony]
(src/unnamed/part_002).  NikonV3 is the spec-modelled oracle of DecodeEnv;
the others are embedded from their sources. -/
def registeredParsers (env : DecodeEnv) : List ParserFn :=
  [defaultParserFn env, appleParserFn env, canonParserFn env, nikonV3ParserFn env,
   adobeDNGParserFn env, sonyParserFn env]

/-- The observable outcome of a Go accessor: a returned value, a returned
error, or an aborted computation (a run-time panic). -/
inductive Outcome (α : Type) where
  | ok (val : α)
  | err (e : GoError)
  | panics (msg : String)
  deriving DecidableEq, Repr

/-- exif.Exif.GPSAltitude (exif/api.go): look up GPSAltitude and
GPSAltitudeRef, read the reference integer and the first rational, and
compute float32(aN / aD), negated for reference 1.  The Go expression
`aN / aD` is 64-bit integer division (Int.tdiv, truncation toward zero),
which panics at run time when the denominator is zero; the embedding keeps
the integer quotient (the float32 conversion loses nothing the claims
evaluate). -/
def gpsAltitude (x : Exif) : Outcome Int :=
  match x.get "GPSAltitude" with
  | .error e => .err e
  | .ok alt =>
    match x.get "GPSAltitudeRef" with
    | .error e => .err e
    | .ok altRef =>
      match altRef.intAt 0 with
      | .error _ => .err (.errMsg "cannot parse GPS Altitude")
      | .ok ref =>
        match alt.rat2At 0 with
        | .error _ => .err (.errMsg "cannot parse GPS Altitude")
        | .ok nd =>
          if nd.2 = 0 then .panics "runtime error: integer divide by zero"
          else
            let a := Int.tdiv nd.1 nd.2
            .ok (if ref = 1 then -a else a)

/-- exif.Exif.FocalLength (exif/api.go): rational tags divide numerator by
denominator, falling back to the bare numerator when the denominator is
zero; short tags apply the vendor heuristic on the second value's decimal
length.  float32 arithmetic is modelled exactly in ℚ. -/
def focalLength (x : Exif) (fn : FieldName) : Outcome ℚ :=
  match x.get fn with
  | .error _ => .err (.errMsg "cannot parse Focal Length")
  | .ok tag =>
    match tag.tagType with
    | .dtRational =>
      match tag.rat2At 0 with
      | .error e => .err (.errMsg e)
      | .ok nd =>
        if nd.2 = 0 then .ok (nd.1 : ℚ)
        else .ok ((nd.1 : ℚ) / (nd.2 : ℚ))
    | .dtShort =>
      let a := goIntZ (tag.intAt 0)
      match tag.intAt 1 with
      | .error _ => .ok (a : ℚ)
      | .ok b =>
        let l := (toString b).length
        if a = 0 then .ok (b : ℚ)
        else if a = 2 ∧ l = 4 then .ok ((b : ℚ) / 1000)
        else if a = 2 ∧ l = 3 then .ok ((b : ℚ) / 100)
        else .err (.errMsg "cannot parse FocalLength")
    | _ => .err (.errMsg "cannot parse FocalLength")

/-- Decimal digit run to its value; none on a non-digit. -/
def decDigitsVal : List Char → Nat → Option Nat
  | [], acc => some acc
  | c :: rest, acc =>
    if c.isDigit then decDigitsVal rest (acc * 10 + (c.toNat - 48)) else none

/-- Split a character list at the first '.', if any. -/
def splitAtDot : List Char → List Char × Option (List Char)
  | [] => ([], none)
  | c :: r =>
    if c = '.' then ([], some r)
    else
      let pr := splitAtDot r
      (c :: pr.1, pr.2)

/-- strconv.ParseFloat on the exact rational model, restricted to the plain
decimal forms ([+-]digits[.digits]) the degree-string parser feeds it
(no exponent/hex/Inf/NaN forms reach it from parseTagDegreesString);
the IEEE double rounding of the Go original is dropped in favour of the
exact value. -/
def parseFloatQ (s : String) : Except String ℚ :=
  let sgncs : ℚ × List Char :=
    match s.data with
    | '-' :: r => (-1, r)
    | '+' :: r => (1, r)
    | r => (1, r)
  let ip := splitAtDot sgncs.2
  match decDigitsVal ip.1 0 with
  | none => .error "invalid syntax"
  | some ival =>
    match ip.2 with
    | none =>
      if ip.1.isEmpty then .error "invalid syntax"
      else .ok (sgncs.1 * ival)
    | some fcs =>
      match decDigitsVal fcs 0 with
      | none => .error "invalid syntax"
      | some fval =>
        if ip.1.isEmpty ∧ fcs.isEmpty then .error "invalid syntax"
        else .ok (sgncs.1 * ((ival : ℚ) + (fval : ℚ) / (10 : ℚ) ^ fcs.length))

/-- math.Copysign on the rational model: magnitude of x with the sign of y.
(The float sign bit of -0.0 has no rational counterpart; no input the
claims evaluate produces a negative zero.) -/
def copysignQ (x y : ℚ) : ℚ := if y < 0 then -|x| else |x|

/-- The splitter of parseTagDegreesString: ',' and ';'. -/
def isSplitRune (c : Char) : Bool := c = ',' ∨ c = ';'

/-- strings.FieldsFunc: maximal runs of non-separator characters, empty
fields dropped. -/
def fieldsFuncAux : List Char → List Char → List String
  | [], acc => if acc.isEmpty then [] else [String.mk acc.reverse]
  | c :: rest, acc =>
    if isSplitRune c then
      if acc.isEmpty then fieldsFuncAux rest []
      else String.mk acc.reverse :: fieldsFuncAux rest []
    else fieldsFuncAux rest (c :: acc)

/-- strings.FieldsFunc(s, isSplitRune). -/
def fieldsFuncSplit (s : String) : List String := fieldsFuncAux s.data []

/-- exif.parseTagDegreesString (exif/exif.go): six fields pair up as
degrees/minutes/seconds each split around a comma decimal mark; three fields
are degrees/minutes/seconds directly; minutes and seconds take the sign of
the degrees (math.Copysign); any other field count is an error. -/
def parseTagDegreesString (s : String) : Except String ℚ :=
  match fieldsFuncSplit s with
  | [p0, p1, p2, p3, p4, p5] =>
    match parseFloatQ (p0 ++ "." ++ p1) with
    | .error _ => .error ("unknown coordinate format: " ++ s)
    | .ok degrees =>
      match parseFloatQ (p2 ++ "." ++ p3) with
      | .error _ => .error ("unknown coordinate format: " ++ s)
      | .ok minutes0 =>
        let minutes := copysignQ minutes0 degrees
        match parseFloatQ (p4 ++ "." ++ p5) with
        | .error _ => .error ("unknown coordinate format: " ++ s)
        | .ok seconds0 =>
          let seconds := copysignQ seconds0 degrees
          .ok (degrees + minutes / 60 + seconds / 3600)
  | [p0, p1, p2] =>
    match parseFloatQ p0 with
    | .error _ => .error ("unknown coordinate format: " ++ s)
    | .ok degrees =>
      match parseFloatQ p1 with
      | .error _ => .error ("unknown coordinate format: " ++ s)
      | .ok minutes0 =>
        let minutes := copysignQ minutes0 degrees
        match parseFloatQ p2 with
        | .error _ => .error ("unknown coordinate format: " ++ s)
        | .ok seconds0 =>
          let seconds := copysignQ seconds0 degrees
          .ok (degrees + minutes / 60 + seconds / 3600)
  | _ => .error ("unknown coordinate format: " ++ s)

/-! ## Shared instances, concrete builders and helper lemmas -/

instance {ε α : Type _} [DecidableEq ε] [DecidableEq α] : DecidableEq (Except ε α) := fun a b =>
  match a, b with
  | .ok u, .ok v =>
    if h : u = v then .isTrue (by rw [h]) else .isFalse (by intro hc; cases hc; exact h rfl)
  | .error u, .error v =>
    if h : u = v then .isTrue (by rw [h]) else .isFalse (by intro hc; cases hc; exact h rfl)
  | .ok _, .error _ => .isFalse (by intro hc; cases hc)
  | .error _, .ok _ => .isFalse (by intro hc; cases hc)

/-- A concrete opaque tag: every collaborator view fails. -/
def simpleTag (id : Nat) (val : List Nat) : Tag :=
  { id := id, tagType := .dtUndefined, count := val.length, val := val, valOffset := 0,
    int64At := fun _ => .error "tiff: no integer value",
    intAt := fun _ => .error "tiff: no integer value",
    rat2At := fun _ => .error "tiff: no rational value",
    stringVal := .error "tiff: no string value" }

/-- A concrete rational tag whose first rational is num/den. -/
def ratTag (id : Nat) (num den : Int) : Tag :=
  { id := id, tagType := .dtRational, count := 1, val := [], valOffset := 0,
    int64At := fun _ => .error "tiff: not an integer",
    intAt := fun _ => .error "tiff: not an integer",
    rat2At := fun i => if i = 0 then .ok (num, den) else .error "tiff: index out of range",
    stringVal := .error "tiff: not a string" }

/-- A concrete integer tag with value v. -/
def intTag (id : Nat) (v : Int) : Tag :=
  { id := id, tagType := .dtShort, count := 1, val := [], valOffset := 0,
    int64At := fun _ => .ok v, intAt := fun _ => .ok v,
    rat2At := fun _ => .error "tiff: not a rational",
    stringVal := .error "tiff: not a string" }

/-- A concrete ASCII tag with string value s. -/
def strTag (id : Nat) (s : String) : Tag :=
  { id := id, tagType := .dtAscii, count := s.length, val := [], valOffset := 0,
    int64At := fun _ => .error "tiff: not an integer",
    intAt := fun _ => .error "tiff: not an integer",
    rat2At := fun _ => .error "tiff: not a rational",
    stringVal := .ok s }

/-- A concrete environment whose TIFF codec and HEIF extractor fail on all
inputs. -/
def envAllFail : DecodeEnv :=
  { decodeDir := fun _ _ _ => .error "tiff: truncated directory",
    tiffDecode := fun _ => .error "tiff: short read",
    heifExtract := fun _ => .error "heif: no exif",
    nikonV3Parse := fun x => (x, none) }

/-- Inserting preserves presence of every binding. -/
theorem mapInsert_isSome (fs : Fields) (k : FieldName) (v : Tag) (n : FieldName)
    (h : (fs n).isSome = true) : ((mapInsert fs k v) n).isSome = true := by
  unfold mapInsert
  by_cases hk : n = k <;> simp [hk, h]

/-- One LoadTags step preserves presence of every binding. -/
theorem loadTagsStep_isSome (fm : TagIdMap) (sm : Bool) (fs : Fields) (t : Tag)
    (n : FieldName) (h : (fs n).isSome = true) :
    ((loadTagsStep fm sm fs t) n).isSome = true := by
  unfold loadTagsStep
  by_cases h1 : tagIdLookup fm t.id = ""
  · by_cases h2 : sm <;> simp [h1, h2, h, mapInsert_isSome]
  · simp [h1, h, mapInsert_isSome]

/-- The LoadTags fold preserves presence of every binding. -/
theorem loadTagsFold_isSome (tags : List Tag) (fm : TagIdMap) (sm : Bool) :
    ∀ fs : Fields, ∀ n : FieldName, (fs n).isSome = true →
      ((tags.foldl (loadTagsStep fm sm) fs) n).isSome = true := by
  induction tags with
  | nil => intro fs n h; simpa using h
  | cons t ts ih =>
    intro fs n h
    simpa using ih (loadTagsStep fm sm fs t) n (loadTagsStep_isSome fm sm fs t n h)

/-- LoadTags preserves presence (queryability) of every already-bound field. -/
theorem loadTags_preserves_get (x : Exif) (d : Dir) (fm : TagIdMap) (sm : Bool)
    (n : FieldName) (t : Tag) (h : x.get n = .ok t) :
    ∃ t2, (loadTags x d fm sm).get n = .ok t2 := by
  unfold Exif.get fieldsLookup at *
  have hs : (x.fields n).isSome = true := by
    cases hx : x.fields n with
    | some u => rfl
    | none => rw [hx] at h; cases h
  have h2 := loadTagsFold_isSome d.tags fm sm x.fields n hs
  unfold loadTags
  cases h3 : (d.tags.foldl (loadTagsStep fm sm) x.fields) n with
  | some u => exact ⟨u, by simp [h3]⟩
  | none => rw [h3] at h2; cases h2

/-- A failing loadSubDir leaves the Exif unchanged. -/
theorem loadSubDir_fail_fst (env : DecodeEnv) (x : Exif) (ptr : FieldName)
    (fm : TagIdMap) (e : String) :
    (loadSubDir env x ptr fm).2 = some e → (loadSubDir env x ptr fm).1 = x := by
  unfold loadSubDir
  split
  · simp
  · split
    · simp
    · split
      · simp
      · split
        · simp
        · simp

/-- loadSubDir preserves presence of every already-bound field. -/
theorem loadSubDir_preserves_get (env : DecodeEnv) (x : Exif) (ptr : FieldName)
    (fm : TagIdMap) (n : FieldName) (t : Tag) (h : x.get n = .ok t) :
    ∃ t2, (loadSubDir env x ptr fm).1.get n = .ok t2 := by
  unfold loadSubDir
  split
  · exact ⟨t, h⟩
  · split
    · exact ⟨t, h⟩
    · split
      · exact ⟨t, h⟩
      · split
        · exact ⟨t, h⟩
        · exact loadTags_preserves_get x _ fm x.opts.keepUnknownTags n t h

/-! ## C2: the Sony descrambling table -/

set_option maxRecDepth 8000 in
/-- Pointwise inversion over all 256 byte values. -/
theorem descrambleTbl_fwd_inv :
    ∀ v : Fin 256, descrambleTbl.getD (forwardScramble v) 0 = (v : Nat) := by decide

/-- C2: the 256-entry table built by descramble0x9050 maps the
forward-scrambled value (v*v*v) mod 249 back to v for every byte v ≤ 248,
fixes every byte value 249..255, and descrambling a blob whose bytes were
all forward-scrambled recovers the original blob. -/
theorem descramble0x9050_inverts_scramble :
    (∀ v : Nat, v ≤ 248 → descrambleTbl.getD (v * v * v % 249) 0 = v) ∧
    (∀ v : Nat, 249 ≤ v → v ≤ 255 → descrambleTbl.getD v 0 = v) ∧
    (∀ blob : List Nat, (∀ b ∈ blob, b ≤ 255) →
      descramble0x9050 (blob.map forwardScramble) = blob) := by
  have key : ∀ v : Nat, v ≤ 255 → descrambleTbl.getD (forwardScramble v) 0 = v := by
    intro v hv
    have h := descrambleTbl_fwd_inv ⟨v, by omega⟩
    simpa using h
  refine ⟨?_, ?_, ?_⟩
  · intro v hv
    have h := key v (by omega)
    rwa [forwardScramble, if_pos (by omega : v < 249)] at h
  · intro v hv1 hv2
    have h := key v hv2
    rwa [forwardScramble, if_neg (by omega : ¬ v < 249)] at h
  · intro blob hb
    induction blob with
    | nil => rfl
    | cons a l ih =>
      have ha : a ≤ 255 := hb a (by simp)
      have hl : ∀ b ∈ l, b ≤ 255 := fun b hbl => hb b (by simp [hbl])
      have h := key a ha
      have ht := ih hl
      simp only [descramble0x9050, List.map_cons, List.map_map] at ht ⊢
      exact List.cons_eq_cons.mpr ⟨h, ht⟩

/-- C2 witness: the inversion evaluated at v = 7, at the fixed point 250, and
on the concrete blob [1, 100, 250]. -/
theorem descramble0x9050_inverts_scramble_witness :
    descrambleTbl.getD (7 * 7 * 7 % 249) 0 = 7 ∧
    descrambleTbl.getD 250 0 = 250 ∧
    descramble0x9050 ([1, 100, 250].map forwardScramble) = [1, 100, 250] :=
  ⟨descramble0x9050_inverts_scramble.1 7 (by norm_num),
   descramble0x9050_inverts_scramble.2.1 250 (by norm_num) (by norm_num),
   descramble0x9050_inverts_scramble.2.2 [1, 100, 250] (by decide)⟩

/-! ## C6: Apple signature gating -/

/-- C6: when the MakerNote tag is present but its value has fewer than 12
bytes or its first 12 bytes differ from "Apple iOS\0\0\x01", the Apple
parser returns nil success and leaves the Exif — hence the field mapping —
unchanged, adding zero Apple fields. -/
theorem appleParse_nonsignature_noop (env : DecodeEnv) (x : Exif) (m : Tag)
    (hm : x.get makerNoteName = .ok m)
    (h : m.val.length < 12 ∨ m.val.take 12 ≠ appleSigBytes) :
    appleParse env x = (x, none) := by
  unfold appleParse
  rw [hm]
  rcases h with h | h
  · simp [h]
  · by_cases hl : m.val.length < 12
    · simp [hl]
    · simp [hl, h]

/-- A concrete Exif whose MakerNote is a 3-byte value ("App"). -/
def appleNoopX : Exif :=
  { tiff := { dirs := [], order := .bigEndian },
    fields := mapInsert emptyFields makerNoteName (simpleTag 0x927c [65, 112, 112]),
    raw := [], opts := { keepUnknownTags := false, maxExifSize := 0 } }

/-- C6 witness: the Apple parser is a no-op on the 3-byte maker note. -/
theorem appleParse_nonsignature_noop_witness :
    appleParse envAllFail appleNoopX = (appleNoopX, none) :=
  appleParse_nonsignature_noop envAllFail appleNoopX (simpleTag 0x927c [65, 112, 112])
    (by rfl) (Or.inl (by decide))

/-! ## C8: FocalLength with a zero denominator -/

/-- C8: a present rational focal-length tag whose first rational has
denominator 0 makes the FocalLength accessor return the bare numerator and
no error. -/
theorem focalLength_zero_denominator (x : Exif) (fn : FieldName) (tag : Tag) (num : Int)
    (hget : x.get fn = .ok tag) (ht : tag.tagType = .dtRational)
    (hr : tag.rat2At 0 = .ok (num, 0)) :
    focalLength x fn = .ok (num : ℚ) := by
  unfold focalLength
  rw [hget]
  simp [ht, hr]

/-- A concrete Exif with FocalLength bound to the rational 85/0 (mirroring
the repository's own "Zero denominator" test case). -/
def focalZeroDenX : Exif :=
  { tiff := { dirs := [], order := .bigEndian },
    fields := mapInsert emptyFields "FocalLength" (ratTag 0x920a 85 0),
    raw := [], opts := { keepUnknownTags := false, maxExifSize := 0 } }

/-- C8 witness: FocalLength of 85/0 is 85 with no error. -/
theorem focalLength_zero_denominator_witness :
    focalLength focalZeroDenX "FocalLength" = .ok (85 : ℚ) :=
  focalLength_zero_denominator focalZeroDenX "FocalLength" (ratTag 0x920a 85 0) 85
    (by rfl) (by rfl) (by rfl)

/-! ## C4: accessor behaviour on a zero denominator -/

/-- The failing decoded Exif for C4: GPSAltitude bound to the rational
1500/0 and GPSAltitudeRef to the integer 1 (the tests build such objects
directly). -/
def gpsAltitudeZeroDenX : Exif :=
  { tiff := { dirs := [], order := .bigEndian },
    fields := mapInsert (mapInsert emptyFields "GPSAltitude" (ratTag 6 1500 0))
      "GPSAltitudeRef" (intTag 5 1),
    raw := [], opts := { keepUnknownTags := false, maxExifSize := 0 } }

/-- C4 (code-bug evidence): with GPSAltitude present but its rational having
a zero denominator, the GPSAltitude accessor reaches the unguarded Go
integer division `aN / aD` with aD = 0 and aborts with a run-time panic
instead of returning a value or an error.  (FocalLength guards this case
explicitly; GPSAltitude and calcTimeHelper in the same file do not.) -/
theorem gpsAltitude_zero_denominator_panics :
    gpsAltitude gpsAltitudeZeroDenX = .panics "runtime error: integer divide by zero" := by
  rfl

/-! ## C7: degree-string parsing -/

/-- C7: the degree-string parser maps both the comma and the semicolon
variant of "52,00000,50,00000,34,01180" to 951170059/18000000 — which is
within 1e-10 of 52.842781055556 — maps "-008.0,30.0,03.6" to exactly
-8.501, and rejects the mixed-decimal-mark string
"-17,00000,15.00000,04.80000" with an error. -/
theorem parseTagDegreesString_examples :
    parseTagDegreesString "52,00000,50,00000,34,01180" = .ok (951170059 / 18000000) ∧
    parseTagDegreesString "52,00000;50,00000;34,01180" = .ok (951170059 / 18000000) ∧
    |(951170059 : ℚ) / 18000000 - 52842781055556 / 10 ^ 12| ≤ 1 / 10 ^ 10 ∧
    parseTagDegreesString "-008.0,30.0,03.6" = .ok (-8501 / 1000) ∧
    exceptIsOk (parseTagDegreesString "-17,00000,15.00000,04.80000") = false := by
  refine ⟨?_, ?_, ?_, ?_, ?_⟩
  · simp [parseTagDegreesString, fieldsFuncSplit, fieldsFuncAux, isSplitRune, parseFloatQ,
      splitAtDot, decDigitsVal, copysignQ]
    norm_num [abs_of_nonneg]
  · simp [parseTagDegreesString, fieldsFuncSplit, fieldsFuncAux, isSplitRune, parseFloatQ,
      splitAtDot, decDigitsVal, copysignQ]
    norm_num [abs_of_nonneg]
  · have hv : (951170059 : ℚ) / 18000000 - 52842781055556 / 10 ^ 12 = -(1 / 2250000000000) := by
      norm_num
    rw [hv, abs_neg, abs_of_nonneg (by norm_num : (0 : ℚ) ≤ 1 / 2250000000000)]
    norm_num
  · have qa : |(18 : ℚ) / 5| = 18 / 5 := abs_of_nonneg (by norm_num)
    simp [parseTagDegreesString, fieldsFuncSplit, fieldsFuncAux, isSplitRune, parseFloatQ,
      splitAtDot, decDigitsVal, copysignQ]
    norm_num [qa]
  · simp [parseTagDegreesString, fieldsFuncSplit, fieldsFuncAux, isSplitRune, exceptIsOk]

/-! ## C10: silent skip of unreadable sub-IFD pointer offsets -/

/-- C10: (a) a present sub-IFD pointer whose value cannot be read as an
integer offset makes loadSubDir return nil with the Exif unchanged, exactly
like an absent pointer; (b) a recorded traversal error arises only after a
successfully read offset, from a failed seek (negative offset) or a failed
directory decode. -/
theorem loadSubDir_unreadable_offset_skipped :
    (∀ env x ptr fm tag e0, Exif.get x ptr = .ok tag → tag.int64At 0 = .error e0 →
      loadSubDir env x ptr fm = (x, none)) ∧
    (∀ env x ptr fm err, (loadSubDir env x ptr fm).2 = some err →
      ∃ tag off, Exif.get x ptr = .ok tag ∧ tag.int64At 0 = .ok off ∧
        (off < 0 ∨ ∃ e, env.decodeDir x.tiff.order x.raw off = .error e)) := by
  constructor
  · intro env x ptr fm tag e0 hget hint
    unfold loadSubDir
    rw [hget]
    simp [hint]
  · intro env x ptr fm err
    unfold loadSubDir
    split
    · simp
    · rename_i tag hget
      split
      · simp
      · rename_i off hoff
        split
        · rename_i hneg
          intro _
          exact ⟨tag, off, hget, hoff, Or.inl hneg⟩
        · rename_i hneg
          split
          · rename_i e hdec
            intro _
            exact ⟨tag, off, hget, hoff, Or.inr ⟨e, hdec⟩⟩
          · simp

/-- A concrete Exif whose GPS pointer tag yields no integer offset. -/
def subdirPtrX : Exif :=
  { tiff := { dirs := [], order := .bigEndian },
    fields := mapInsert emptyFields gpsInfoIFDPointer (simpleTag 0x8825 [1]),
    raw := [], opts := { keepUnknownTags := false, maxExifSize := 0 } }

/-- C10 witness: the unreadable GPS pointer offset is skipped silently. -/
theorem loadSubDir_unreadable_offset_skipped_witness :
    loadSubDir envAllFail subdirPtrX gpsInfoIFDPointer gpsFields = (subdirPtrX, none) :=
  loadSubDir_unreadable_offset_skipped.1 envAllFail subdirPtrX gpsInfoIFDPointer gpsFields
    (simpleTag 0x8825 [1]) "tiff: no integer value" (by rfl) (by rfl)

/-! ## C3: vendor decoders on a corrupt matched payload -/

/-- A Sony-branded Exif: Make "SONY", Model "ILCE-7M3", and a 13-byte
signatureless maker note (valOffset 0). -/
def sonyBrandX : Exif :=
  { tiff := { dirs := [], order := .littleEndian },
    fields :=
      mapInsert (mapInsert (mapInsert emptyFields modelName (strTag 0x0110 "ILCE-7M3"))
        makeName (strTag 0x010f "SONY")) makerNoteName (simpleTag 0x927c (List.replicate 13 0)),
    raw := [], opts := { keepUnknownTags := false, maxExifSize := 0 } }

/-- C3 counterexample: the Sony brand and note-length gates all pass and the
inner directory decode fails (the oracle rejects every directory), yet
sony.Parse returns nil and adds nothing — the decode failure is not
propagated, contradicting the claim that all three vendor decoders report a
corrupt payload after a successful match. -/
theorem sonyParse_inner_decode_failure_silent :
    envAllFail.decodeDir .littleEndian (List.replicate 13 0) 0 = .error "tiff: truncated directory" ∧
    sonyParse envAllFail sonyBrandX emptyTagIdMap = (sonyBrandX, emptyTagIdMap, none) :=
  ⟨rfl, rfl⟩

/-- C3 amended: Apple and Canon return the inner-directory decode failure as
their error once the signature/brand match succeeded, while Sony treats the
same condition as a silent no-op returning nil. -/
theorem vendor_inner_decode_failure_semantics :
    (∀ env x m e, Exif.get x makerNoteName = .ok m → ¬ m.val.length < 12 →
      m.val.take 12 = appleSigBytes →
      env.decodeDir x.tiff.order m.val 14 = .error e →
      appleParse env x = (x, some (.errMsg e))) ∧
    (∀ env x m mk0 e, Exif.get x makerNoteName = .ok m → Exif.get x makeName = .ok mk0 →
      mk0.stringVal = .ok "Canon" →
      env.decodeDir x.tiff.order (List.replicate m.valOffset 0 ++ m.val) (m.valOffset : Int) = .error e →
      canonParse env x = (x, some (.errMsg e))) ∧
    (∀ env x g m0 m1 m e, Exif.get x modelName = .ok m0 → Exif.get x makeName = .ok m1 →
      goStrZ m1.stringVal = "SONY" → Exif.get x makerNoteName = .ok m →
      ¬ m.val.length < 13 →
      env.decodeDir x.tiff.order (List.replicate m.valOffset 0 ++ m.val)
        ((m.valOffset : Int) + (sonySigOffset m.val : Int)) = .error e →
      sonyParse env x g = (x, g, none)) := by
  refine ⟨?_, ?_, ?_⟩
  · intro env x m e hm hlen hsig hdec
    unfold appleParse
    rw [hm]
    simp [hlen, hsig, hdec]
  · intro env x m mk0 e hm hmk hsv hdec
    unfold canonParse
    rw [hm]
    simp [hmk, hsv, hdec]
  · intro env x g m0 m1 m e hm0 hm1 hmk hm hlen hdec
    unfold sonyParse
    rw [hm0]
    simp [hm1, hmk, hm, hlen, hdec]

/-- An Apple-signature Exif whose 14-byte maker note is corrupt past the
signature. -/
def appleCorruptX : Exif :=
  { tiff := { dirs := [], order := .bigEndian },
    fields := mapInsert emptyFields makerNoteName (simpleTag 0x927c (appleSigBytes ++ [0, 0])),
    raw := [], opts := { keepUnknownTags := false, maxExifSize := 0 } }

/-- A Canon-branded Exif with a corrupt 3-byte maker note. -/
def canonCorruptX : Exif :=
  { tiff := { dirs := [], order := .bigEndian },
    fields := mapInsert (mapInsert emptyFields makeName (strTag 0x010f "Canon"))
      makerNoteName (simpleTag 0x927c [1, 2, 3]),
    raw := [], opts := { keepUnknownTags := false, maxExifSize := 0 } }

/-- C3 witness: the amended semantics evaluated on concrete corrupt
payloads for all three vendors. -/
theorem vendor_inner_decode_failure_semantics_witness :
    appleParse envAllFail appleCorruptX = (appleCorruptX, some (.errMsg "tiff: truncated directory")) ∧
    canonParse envAllFail canonCorruptX = (canonCorruptX, some (.errMsg "tiff: truncated directory")) ∧
    sonyParse envAllFail sonyBrandX emptyTagIdMap = (sonyBrandX, emptyTagIdMap, none) :=
  ⟨vendor_inner_decode_failure_semantics.1 envAllFail appleCorruptX
    (simpleTag 0x927c (appleSigBytes ++ [0, 0])) "tiff: truncated directory"
    (by rfl) (by decide) (by decide) (by rfl),
   vendor_inner_decode_failure_semantics.2.1 envAllFail canonCorruptX
    (simpleTag 0x927c [1, 2, 3]) (strTag 0x010f "Canon") "tiff: truncated directory"
    (by rfl) (by rfl) (by rfl) (by rfl),
   vendor_inner_decode_failure_semantics.2.2 envAllFail sonyBrandX emptyTagIdMap
    (strTag 0x0110 "ILCE-7M3") (strTag 0x010f "SONY") (simpleTag 0x927c (List.replicate 13 0))
    "tiff: truncated directory" (by rfl) (by rfl) (by rfl) (by rfl) (by decide) (by rfl)⟩

/-! ## C1: isolated GPS sub-IFD failure -/

/-- C1: when the EXIF and Interoperability traversals of the default parser
succeed and the GPS traversal fails, parser.Parse returns the populated
Exif together with the aggregated error keyed only by the GPS stage:
IsCriticalError is false, IsGPSError is true, IsExifError and
IsInteroperabilityError are false, and every field present after the
successful stages (primary directory, thumbnail, EXIF sub-IFD) remains
present and queryable in the returned result. -/
theorem parser_gps_failure_isolated (env : DecodeEnv) (x : Exif) (gerr : String)
    (hdirs : x.tiff.dirs ≠ [])
    (hexif : (loadSubDir env (parserMainLoad x) exifIFDPointer exifFields).2 = none)
    (hgps : (loadSubDir env (loadSubDir env (parserMainLoad x) exifIFDPointer exifFields).1
      gpsInfoIFDPointer gpsFields).2 = some gerr)
    (hint : (loadSubDir env (loadSubDir env (parserMainLoad x) exifIFDPointer exifFields).1
      interoperabilityIFDPointer interopFields).2 = none) :
    (parserParse env x).2 = some (.tiffErrs [(.loadGPS, gerr)]) ∧
    IsCriticalError (.tiffErrs [(.loadGPS, gerr)]) = false ∧
    IsGPSError (.tiffErrs [(.loadGPS, gerr)]) = true ∧
    IsExifError (.tiffErrs [(.loadGPS, gerr)]) = false ∧
    IsInteroperabilityError (.tiffErrs [(.loadGPS, gerr)]) = false ∧
    (∀ n t, (loadSubDir env (parserMainLoad x) exifIFDPointer exifFields).1.get n = .ok t →
      ∃ t2, (parserParse env x).1.get n = .ok t2) := by
  have hne : x.tiff.dirs.isEmpty = false := by
    cases hd : x.tiff.dirs with
    | nil => exact absurd hd hdirs
    | cons a l => rfl
  have hfst := loadSubDir_fail_fst env
    (loadSubDir env (parserMainLoad x) exifIFDPointer exifFields).1
    gpsInfoIFDPointer gpsFields gerr hgps
  have hP : parserParse env x =
      ((loadSubDir env (loadSubDir env (parserMainLoad x) exifIFDPointer exifFields).1
          interoperabilityIFDPointer interopFields).1,
        some (.tiffErrs [(.loadGPS, gerr)])) := by
    simp only [parserParse, parserSubIFDs, hne, hexif, hgps, hint, hfst]
    simp [teInsert]
  refine ⟨by rw [hP], rfl, rfl, rfl, rfl, ?_⟩
  intro n t h
  have h2 := loadSubDir_preserves_get env
    (loadSubDir env (parserMainLoad x) exifIFDPointer exifFields).1
    interoperabilityIFDPointer interopFields n t h
  rw [hP]
  exact h2

/-- An environment that decodes a directory only at offset 4. -/
def envC1 : DecodeEnv :=
  { decodeDir := fun _ _ off => if off = 4 then .ok { tags := [] } else .error "bad offset",
    tiffDecode := fun _ => .error "unused",
    heifExtract := fun _ => .error "unused",
    nikonV3Parse := fun x => (x, none) }

/-- A well-formed Exif whose EXIF pointer targets offset 4 and whose GPS
pointer targets the corrupt offset 8. -/
def xC1 : Exif :=
  { tiff := { dirs := [{ tags := [] }], order := .littleEndian },
    fields := mapInsert (mapInsert emptyFields exifIFDPointer (intTag 0x8769 4))
      gpsInfoIFDPointer (intTag 0x8825 8),
    raw := [0, 1, 2, 3], opts := { keepUnknownTags := false, maxExifSize := 0 } }

/-- The GPS-stage error text of the xC1 scenario. -/
def gerrC1 : String := "exif: sub-IFD GPSInfoIFDPointer decode failed: bad offset"

/-- C1 witness: the corrupted GPS offset yields the GPS-only aggregated
error while the GPS pointer field itself stays queryable. -/
theorem parser_gps_failure_isolated_witness :
    (parserParse envC1 xC1).2 = some (.tiffErrs [(.loadGPS, gerrC1)]) ∧
    IsCriticalError (.tiffErrs [(.loadGPS, gerrC1)]) = false ∧
    IsGPSError (.tiffErrs [(.loadGPS, gerrC1)]) = true ∧
    (∃ t2, (parserParse envC1 xC1).1.get gpsInfoIFDPointer = .ok t2) := by
  have h := parser_gps_failure_isolated envC1 xC1 gerrC1
    (by simp [xC1]) (by rfl) (by rfl) (by rfl)
  exact ⟨h.1, h.2.1, h.2.2.1, h.2.2.2.2.2 gpsInfoIFDPointer (intTag 0x8825 8) (by rfl)⟩

/-! ## C5: the maxExifSize read cap -/

/-- A minimal 8-byte TIFF-marked stream ("II*\0" plus padding). -/
def tinyTiffStream : List Nat := [0x49, 0x49, 0x2a, 0x00, 0, 0, 0, 0]

/-- An 8-byte stream sharing only its first byte with tinyTiffStream. -/
def junkStream : List Nat := [0x49, 0, 0, 0, 0, 0, 0, 0]

/-- An environment whose TIFF decode succeeds with one empty directory. -/
def envTiny : DecodeEnv :=
  { decodeDir := fun _ _ _ => .error "tiff: no directory",
    tiffDecode := fun _ => .ok ({ dirs := [{ tags := [] }], order := .littleEndian }, 8),
    heifExtract := fun _ => .error "heif: no exif",
    nikonV3Parse := fun x => (x, none) }

/-- C5 counterexample: with MaxExifSize = 1 (kept, being positive, by the
normalization), DecodeWithOptions still reads its fixed 8-byte header before
container detection — more than maxExifSize — and two streams that agree on
their first maxExifSize bytes decode to different outcomes, so the decode
outcome does not depend only on that prefix. -/
theorem decodeWithOptions_ignores_maxExifSize :
    (effectiveOptions { keepUnknownTags := false, maxExifSize := 1 }).maxExifSize = 1 ∧
    decodeWithOptionsHeaderRead tinyTiffStream = 8 ∧
    ¬ ((decodeWithOptionsHeaderRead tinyTiffStream : Int) ≤
        (effectiveOptions { keepUnknownTags := false, maxExifSize := 1 }).maxExifSize) ∧
    tinyTiffStream.take 1 = junkStream.take 1 ∧
    exceptIsOk (decodeWithOptions envTiny (registeredParsers envTiny) tinyTiffStream
      { keepUnknownTags := false, maxExifSize := 1 } emptyTagIdMap).2 = true ∧
    exceptIsOk (decodeWithOptions envTiny (registeredParsers envTiny) junkStream
      { keepUnknownTags := false, maxExifSize := 1 } emptyTagIdMap).2 = false := by
  refine ⟨rfl, rfl, by decide, rfl, rfl, rfl⟩

/-- C5 amended: the prefix property holds for the
DecodeWithParseHeaderAndOptions path: at most maxExifSize bytes (defaulting
to 4 MiB when unset or non-positive) are read, so its outcome depends only
on that prefix of the stream; DecodeWithOptions applies no such cap. -/
theorem decodeWithParseHeader_prefix_determined (env : DecodeEnv) (ps : List ParserFn)
    (opts : DecodeOptions) (g : TagIdMap) (s1 s2 : List Nat)
    (h : s1.take (effectiveOptions opts).maxExifSize.toNat =
      s2.take (effectiveOptions opts).maxExifSize.toNat) :
    decodeWithParseHeaderAndOptions env ps s1 opts g =
      decodeWithParseHeaderAndOptions env ps s2 opts g ∧
    (effectiveOptions { keepUnknownTags := false, maxExifSize := 0 }).maxExifSize
      = 4 * 1024 * 1024 := by
  constructor
  · simp only [decodeWithParseHeaderAndOptions]
    rw [h]
  · rfl

/-- C5 witness: two streams agreeing on their 3-byte cap prefix decode
identically under MaxExifSize = 3. -/
theorem decodeWithParseHeader_prefix_determined_witness :
    decodeWithParseHeaderAndOptions envAllFail [] [1, 2, 3]
      { keepUnknownTags := false, maxExifSize := 3 } emptyTagIdMap =
    decodeWithParseHeaderAndOptions envAllFail [] [1, 2, 3, 9]
      { keepUnknownTags := false, maxExifSize := 3 } emptyTagIdMap ∧
    (effectiveOptions { keepUnknownTags := false, maxExifSize := 0 }).maxExifSize
      = 4 * 1024 * 1024 :=
  decodeWithParseHeader_prefix_determined envAllFail []
    { keepUnknownTags := false, maxExifSize := 3 } emptyTagIdMap [1, 2, 3] [1, 2, 3, 9] (by rfl)

/-! ## C9: determinism and idempotence of decoding

The only mutable state shared between two decode calls is the package-level
Sony0x9050Fields map (`g` in the embedding).  The lemmas below show the
decode outcome does not depend on that map's prior state: the Sony loop
rewrites every key it later reads, so re-decoding the same bytes under the
map state left by the first call yields the same result. -/

/-- Keys not written by the Sony descriptor loop keep their prior binding. -/
theorem sonyLoopFold_fst_notin (model : String) (buf : List Nat) :
    ∀ (l : List (Nat × SonyBinaryTag)) (st : TagIdMap × List Tag) (j : Nat),
      j ∉ l.map (fun p => p.1) →
      (l.foldl (sonyLoopStep model buf) st).1 j = st.1 j := by
  intro l
  induction l with
  | nil => intro st j _; rfl
  | cons p rest ih =>
    intro st j hj
    have hj1 : j ≠ p.1 := by
      intro hc; exact hj (by simp [hc])
    have hj2 : j ∉ rest.map (fun p => p.1) := by
      intro hc; exact hj (by simp [hc])
    simp only [List.foldl_cons]
    rw [ih _ j hj2]
    unfold sonyLoopStep
    cases makeBinaryTag p.2 model buf p.1 <;> simp [natMapInsert, hj1]

/-- Keys written by the Sony descriptor loop end up with a binding that does
not depend on the starting map state. -/
theorem sonyLoopFold_fst_mem (model : String) (buf : List Nat) :
    ∀ (l : List (Nat × SonyBinaryTag)) (st st' : TagIdMap × List Tag) (j : Nat),
      j ∈ l.map (fun p => p.1) →
      (l.foldl (sonyLoopStep model buf) st).1 j
        = (l.foldl (sonyLoopStep model buf) st').1 j := by
  intro l
  induction l with
  | nil => intro st st' j hj; cases hj
  | cons p rest ih =>
    intro st st' j hj
    by_cases hr : j ∈ rest.map (fun p => p.1)
    · simp only [List.foldl_cons]
      exact ih _ _ j hr
    · have hj1 : j = p.1 := by
        simp only [List.map_cons, List.mem_cons] at hj
        rcases hj with h | h
        · exact h
        · exact absurd h hr
      simp only [List.foldl_cons]
      rw [sonyLoopFold_fst_notin model buf rest _ j hr,
        sonyLoopFold_fst_notin model buf rest _ j hr]
      unfold sonyLoopStep
      cases makeBinaryTag p.2 model buf p.1 <;> simp [natMapInsert, hj1]

/-- The synthesized tag list of the Sony descriptor loop does not depend on
the starting map state. -/
theorem sonyLoopFold_snd_g (model : String) (buf : List Nat) :
    ∀ (l : List (Nat × SonyBinaryTag)) (g g' : TagIdMap) (acc : List Tag),
      (l.foldl (sonyLoopStep model buf) (g, acc)).2
        = (l.foldl (sonyLoopStep model buf) (g', acc)).2 := by
  intro l
  induction l with
  | nil => intro g g' acc; rfl
  | cons p rest ih =>
    intro g g' acc
    simp only [List.foldl_cons]
    unfold sonyLoopStep
    cases makeBinaryTag p.2 model buf p.1 <;> simp <;> apply ih

/-- A synthesized binary tag carries the loop index as its tag id. -/
theorem makeBinaryTag_id (bt : SonyBinaryTag) (model : String) (buf : List Nat) (i : Nat)
    (t : Tag) (h : makeBinaryTag bt model buf i = some t) : t.id = i := by
  unfold makeBinaryTag at h
  split at h
  · cases h
  · dsimp only at h
    split at h
    · cases h
    · simp only [Option.some.injEq] at h
      subst h
      rfl

/-- Every tag collected by the Sony descriptor loop has an id among the loop
indices. -/
theorem sonyLoopFold_snd_ids (model : String) (buf : List Nat) :
    ∀ (l : List (Nat × SonyBinaryTag)) (st : TagIdMap × List Tag) (t : Tag),
      t ∈ (l.foldl (sonyLoopStep model buf) st).2 →
      t ∈ st.2 ∨ t.id ∈ l.map (fun p => p.1) := by
  intro l
  induction l with
  | nil => intro st t ht; exact Or.inl ht
  | cons p rest ih =>
    intro st t ht
    simp only [List.foldl_cons] at ht
    rcases ih _ t ht with h | h
    · unfold sonyLoopStep at h
      rcases hmk : makeBinaryTag p.2 model buf p.1 with _ | t0 <;> rw [hmk] at h
      · exact Or.inl h
      · simp only [List.mem_append, List.mem_singleton] at h
        rcases h with h | h
        · exact Or.inl h
        · subst h
          exact Or.inr (by simp [makeBinaryTag_id p.2 model buf p.1 _ hmk])
    · exact Or.inr (by simp [h])

/-- LoadTags merges identically under two maps that agree on the merged
tags' ids. -/
theorem loadTagsFold_congr (m1 m2 : TagIdMap) (sm : Bool) :
    ∀ (tags : List Tag), (∀ t ∈ tags, m1 t.id = m2 t.id) →
      ∀ fs, tags.foldl (loadTagsStep m1 sm) fs = tags.foldl (loadTagsStep m2 sm) fs := by
  intro tags
  induction tags with
  | nil => intro _ fs; rfl
  | cons t ts ih =>
    intro h fs
    have h1 : m1 t.id = m2 t.id := h t (by simp)
    have h2 : ∀ u ∈ ts, m1 u.id = m2 u.id := fun u hu => h u (by simp [hu])
    simp only [List.foldl_cons]
    rw [show loadTagsStep m1 sm fs t = loadTagsStep m2 sm fs t by
      unfold loadTagsStep tagIdLookup; rw [h1]]
    exact ih h2 _

/-- loadTags only consults the map at the ids of the merged tags. -/
theorem loadTags_congr_map (x : Exif) (d : Dir) (m1 m2 : TagIdMap) (sm : Bool)
    (h : ∀ t ∈ d.tags, m1 t.id = m2 t.id) :
    loadTags x d m1 sm = loadTags x d m2 sm := by
  unfold loadTags
  rw [loadTagsFold_congr m1 m2 sm d.tags h x.fields]

/-- The Sony loop's synthesized tags are identical for any two starting map
states. -/
theorem sonyLoop_snd_g (g g' : TagIdMap) (model : String) (buf : List Nat) :
    (sonyLoop g model buf).2 = (sonyLoop g' model buf).2 :=
  sonyLoopFold_snd_g model buf Sony0x9050BinaryTags.enum g g' []

/-- At the id of any tag the Sony loop synthesized, the written map agrees
for any two starting states. -/
theorem sonyLoop_fst_at_tags (g g' gw : TagIdMap) (model : String) (buf : List Nat)
    (t : Tag) (ht : t ∈ (sonyLoop gw model buf).2) :
    (sonyLoop g model buf).1 t.id = (sonyLoop g' model buf).1 t.id := by
  rcases sonyLoopFold_snd_ids model buf Sony0x9050BinaryTags.enum (gw, []) t ht with h | h
  · cases h
  · exact sonyLoopFold_fst_mem model buf _ (g, []) (g', []) t.id h

/-- sony.Parse always returns nil (no error), for any map state. -/
theorem sonyParse_err_none (env : DecodeEnv) (x : Exif) (g : TagIdMap) :
    (sonyParse env x g).2.2 = none := by
  unfold sonyParse
  dsimp only
  repeat' split
  all_goals simp

/-- The Exif produced by sony.Parse does not depend on the prior state of
the package-level Sony0x9050Fields map. -/
theorem sonyParse_fst_g_irrelevant (env : DecodeEnv) (x : Exif) (g g' : TagIdMap) :
    (sonyParse env x g).1 = (sonyParse env x g').1 := by
  unfold sonyParse
  dsimp only
  repeat' split
  all_goals try rfl
  all_goals try simp
  all_goals
    (change loadTags _ { tags := (sonyLoop g _ _).2 } (sonyLoop g _ _).1 true
      = loadTags _ { tags := (sonyLoop g' _ _).2 } (sonyLoop g' _ _).1 true
     rw [sonyLoop_snd_g g g']
     apply loadTags_congr_map
     intro t ht
     exact sonyLoop_fst_at_tags g g' g' _ _ t ht)

/-- The parser loop's Exif and error outputs are independent of the
threaded map state whenever each parser's own Exif and error outputs are;
the map state left behind by one parser only feeds the next parser's map
argument. -/
theorem runParsers_outcome_g :
    ∀ ps : List ParserFn,
      (∀ p ∈ ps, ∀ x : Exif, ∀ g g' : TagIdMap,
        (p x g).1 = (p x g').1 ∧ (p x g).2.2 = (p x g').2.2) →
      ∀ x : Exif, ∀ g g' : TagIdMap,
        (runParsers ps x g).1 = (runParsers ps x g').1 ∧
        (runParsers ps x g).2.2 = (runParsers ps x g').2.2 := by
  intro ps
  induction ps with
  | nil => intro _ x g g'; exact ⟨rfl, rfl⟩
  | cons p rest ih =>
    intro h x g g'
    have hp := h p (by simp) x g g'
    have hrest : ∀ q ∈ rest, ∀ x : Exif, ∀ g g' : TagIdMap,
        (q x g).1 = (q x g').1 ∧ (q x g).2.2 = (q x g').2.2 :=
      fun q hq => h q (by simp [hq])
    rcases hpg : p x g with ⟨x1, g1, e1⟩
    rcases hpg' : p x g' with ⟨x1', g1', e1'⟩
    have hx : x1 = x1' := by
      have hh := hp.1
      rw [hpg, hpg'] at hh
      exact hh
    have he : e1 = e1' := by
      have hh := hp.2
      rw [hpg, hpg'] at hh
      exact hh
    subst hx
    subst he
    simp only [runParsers, hpg, hpg']
    cases e1 with
    | none => exact ih hrest x1 g1 g1'
    | some e => cases e <;> exact ⟨rfl, rfl⟩

/-- The registered parser chain yields the same Exif and the same error for
any two states of the Sony map: the default, Apple, Canon, NikonV3 and
AdobeDNG parsers pass the map through untouched, and the Sony parser's
outputs are map-independent by the lemmas above. -/
theorem runParsers_registered_g (env : DecodeEnv) (x : Exif) (g g' : TagIdMap) :
    (runParsers (registeredParsers env) x g).1 = (runParsers (registeredParsers env) x g').1 ∧
    (runParsers (registeredParsers env) x g).2.2 = (runParsers (registeredParsers env) x g').2.2 := by
  refine runParsers_outcome_g (registeredParsers env) ?_ x g g'
  intro p hp
  simp only [registeredParsers, List.mem_cons, List.not_mem_nil, or_false] at hp
  rcases hp with h | h | h | h | h | h <;> subst h
  · intro x g g'; exact ⟨rfl, rfl⟩
  · intro x g g'; exact ⟨rfl, rfl⟩
  · intro x g g'; exact ⟨rfl, rfl⟩
  · intro x g g'; exact ⟨rfl, rfl⟩
  · intro x g g'; exact ⟨rfl, rfl⟩
  · intro x g g'
    refine ⟨sonyParse_fst_g_irrelevant env x g g', ?_⟩
    show (sonyParse env x g).2.2 = (sonyParse env x g').2.2
    rw [sonyParse_err_none env x g, sonyParse_err_none env x g']

/-- The decode outcome (result object and returned error) is independent of
the prior Sony map state. -/
theorem decodeWithOptions_g_irrelevant (env : DecodeEnv) (s : List Nat) (opts : DecodeOptions)
    (g g' : TagIdMap) :
    (decodeWithOptions env (registeredParsers env) s opts g).2 =
    (decodeWithOptions env (registeredParsers env) s opts g').2 := by
  unfold decodeWithOptions
  by_cases hlen : s.length < 8
  · simp [hlen]
  · simp only [if_neg hlen]
    cases hp : decodePayload env s with
    | error e => rfl
    | ok rt =>
      have h := runParsers_registered_g env (exifNew rt.2 rt.1 (effectiveOptions opts)) g g'
      dsimp only
      rw [h.1, h.2]

/-- C9: decoding the same byte sequence twice — the second call running
under whatever Sony0x9050Fields map state the first call left behind —
produces an identical outcome: the same Exif (hence an identical field
mapping) and the same error.  The per-decode in-place descrambling acts on
the per-decode copy of the maker note (`descramble0x9050` applied inside
sonyParse), so it cannot leak between calls; the only cross-call channel is
the map state, which the lemmas above show is irrelevant to the output. -/
theorem decode_twice_idempotent (env : DecodeEnv) (s : List Nat) (opts : DecodeOptions)
    (g : TagIdMap) :
    (decodeWithOptions env (registeredParsers env) s opts
      (decodeWithOptions env (registeredParsers env) s opts g).1).2 =
    (decodeWithOptions env (registeredParsers env) s opts g).2 :=
  decodeWithOptions_g_irrelevant env s opts _ g

end Exiftools
